import Mathlib

/-!
A shallow embedding of the conversational assessment logic of the
Rakshith360 application (the `ChatArea` component in
`src/components/UserProfileCompletion.tsx`), together with verified
properties of that logic.

Modelling conventions:
* JavaScript strings are modelled as Lean `String`s / `List Char`;
  `.length`, `toLowerCase`, `toUpperCase` agree with JavaScript on the
  ASCII fragment actually manipulated by the code.
* JavaScript `Set`s are modelled as `Finset`s where only membership and
  size are consumed, and as duplicate-free insertion lists where order
  is consumed.
* Floating point comparisons of the form `a / b > 0.8` on small natural
  counts `a`, `b` are modelled exactly as `5 * a > 4 * b` (for the tiny
  set sizes involved the rational and double comparisons coincide, and
  JavaScript's `0/0 = NaN > 0.8` is `false`, matching `0 > 0`).
* Asynchronous React state updates are serialised: each event handler is
  one atomic state transformation, and reads of component state inside a
  handler use the handler's snapshot (stale closure values), exactly as
  the real hooks-based code does.
-/

set_option maxHeartbeats 1600000
set_option maxRecDepth 8192

namespace Rakshith

/-! ### Character classes and string helpers (JavaScript semantics) -/

/-- The character class `[a-zA-Z0-9]` used by `normalizeQuestion`'s regex. -/
def isAsciiAlphaNum (c : Char) : Bool :=
  c.isAlpha || c.isDigit

/-- JavaScript's `\s` class (ASCII part plus the BOM/NBSP and Unicode space
separators that `\s`, `trim()` recognise). -/
def isJsSpace (c : Char) : Bool :=
  c = ' ' || c = '\t' || c = '\n' || c = '\r' || c = '\x0b' || c = '\x0c' ||
  c = '\u00a0' || c = '\ufeff' || c = '\u1680' ||
  ('\u2000' ≤ c && c ≤ '\u200a') || c = '\u2028' || c = '\u2029' ||
  c = '\u202f' || c = '\u205f' || c = '\u3000'

/-- JavaScript `\w`: `[A-Za-z0-9_]`. -/
def isWordChar (c : Char) : Bool :=
  c.isAlpha || c.isDigit || c = '_'

/-- The regex character class `[\w\s\-]` used by every heading pattern. -/
def isHeadingChar (c : Char) : Bool :=
  isWordChar c || isJsSpace c || c = '-'

/-- `l₂` starts with `l₁`. -/
def lstartsWith : List Char → List Char → Bool
  | [], _ => true
  | _ :: _, [] => false
  | a :: as, b :: bs => a == b && lstartsWith as bs

/-- JavaScript `hay.includes(needle)` on character lists. -/
def lcontains (hay needle : List Char) : Bool :=
  match hay with
  | [] => needle.isEmpty
  | _ :: t => lstartsWith needle (hay) || lcontains t needle

/-- JavaScript `s.includes(sub)`. -/
def jsIncludes (s sub : String) : Bool :=
  lcontains s.toList sub.toList

/-- JavaScript `split(sep)` on character lists (`"".split` gives `[""]`). -/
def lsplit (sep : Char) : List Char → List (List Char)
  | [] => [[]]
  | c :: t =>
    let r := lsplit sep t
    if c = sep then [] :: r
    else
      match r with
      | [] => [[c]]
      | h :: t' => (c :: h) :: t'

/-- JavaScript `trim()` on character lists. -/
def ltrim (l : List Char) : List Char :=
  ((l.dropWhile isJsSpace).reverse.dropWhile isJsSpace).reverse

/-- JavaScript `trim()`. -/
def jsTrim (s : String) : String :=
  String.mk (ltrim s.toList)

/-- JavaScript `toLowerCase()` (ASCII fragment). -/
def jsToLower (s : String) : String :=
  String.mk (s.toList.map Char.toLower)

/-- JavaScript `toUpperCase()` (ASCII fragment). -/
def jsToUpper (s : String) : String :=
  String.mk (s.toList.map Char.toUpper)

/-- JavaScript `lastIndexOf(c)` (`-1` when absent). -/
def jsLastIndexOf (c : Char) : List Char → Int
  | [] => -1
  | a :: t =>
    let r := jsLastIndexOf c t
    if r ≥ 0 then r + 1 else if a = c then 0 else -1

/-! ### Question normalisation and similarity
(`normalizeQuestion`, `areQuestionsSimilar`, `isSimilarQuestion`). -/

/-- `normalizeQuestion = q.replace(/[^a-zA-Z0-9]+/g, '').toLowerCase()`. -/
def normalizeQuestion (q : String) : String :=
  String.mk ((q.toList.filter isAsciiAlphaNum).map Char.toLower)

/-- The token set built by `areQuestionsSimilar`:
`new Set(norm.split(' ').filter(w => w.length > 2))`. -/
def tokenSet (norm : String) : Finset (List Char) :=
  ((lsplit ' ' norm.toList).filter (fun w => w.length > 2)).toFinset

/-- `areQuestionsSimilar` from the source, branch for branch.  The final
floating comparison `overlap.length / Math.max(size1, size2) > 0.8` is
modelled exactly as `5 * overlap > 4 * max`. -/
def areQuestionsSimilar (q1 q2 : String) : Bool :=
  if normalizeQuestion q1 = normalizeQuestion q2 then true
  else if (normalizeQuestion q1).length > 10 && (normalizeQuestion q2).length > 10 &&
      (jsIncludes (normalizeQuestion q1) (normalizeQuestion q2) ||
       jsIncludes (normalizeQuestion q2) (normalizeQuestion q1)) then true
  else
    5 * (tokenSet (normalizeQuestion q1) ∩ tokenSet (normalizeQuestion q2)).card >
      4 * max (tokenSet (normalizeQuestion q1)).card (tokenSet (normalizeQuestion q2)).card

/-- The specification's reading of the similarity heuristic, in which the
overlap clause compares the whitespace *word* tokens of the two questions
(the only reading under which that clause is not vacuous).  Modelled from
the spec: "the token-overlap ratio (shared tokens of length > 2, divided by
the larger token-set size) exceeds 0.8". -/
def areSimilarSpec (q1 q2 : String) : Bool :=
  if normalizeQuestion q1 = normalizeQuestion q2 then true
  else if (normalizeQuestion q1).length > 10 && (normalizeQuestion q2).length > 10 &&
      (jsIncludes (normalizeQuestion q1) (normalizeQuestion q2) ||
       jsIncludes (normalizeQuestion q2) (normalizeQuestion q1)) then true
  else
    5 * (tokenSet (jsToLower q1) ∩ tokenSet (jsToLower q2)).card >
      4 * max (tokenSet (jsToLower q1)).card (tokenSet (jsToLower q2)).card

/-! ### Dynamic-question post-processing -/

/-- The question-length post-processing inside `callGeminiForDynamicQuestions`:
questions longer than 110 characters are cut at `lastIndexOf(' ')` of the
first 110 characters provided that index exceeds 80, else hard-cut at 110,
and an ellipsis is appended. -/
def truncateQuestion (q : String) : String :=
  if q.length > 110 then
    String.mk ((q.toList.take 110).take
      (if jsLastIndexOf ' ' (q.toList.take 110) > 80
       then (jsLastIndexOf ' ' (q.toList.take 110)).toNat else 110)) ++ "..."
  else q

/-- Index of the last space of `l`, as an `Option`. -/
def lastSpaceIdx (l : List Char) : Option Nat :=
  (l.reverse.findIdx? (fun c => c = ' ')).map (fun j => l.length - 1 - j)

/-- Modelled from the spec: truncate "at the nearest space preceding
position 110 (hard cut at 110 when no such space applies)" and append an
ellipsis; shorter questions are unchanged. -/
def truncateSpec (q : String) : String :=
  if q.length ≤ 110 then q
  else
    match lastSpaceIdx (q.toList.take 110) with
    | some i => String.mk (q.toList.take i) ++ "..."
    | none => String.mk (q.toList.take 110) ++ "..."

/-- The amended truncation contract: the nearest-space cut applies only when
that space sits at an index greater than 80; otherwise the cut is hard at
110. -/
def truncateSpecAmended (q : String) : String :=
  if q.length ≤ 110 then q
  else
    match lastSpaceIdx (q.toList.take 110) with
    | some i => if i > 80 then String.mk (q.toList.take i) ++ "..."
                else String.mk (q.toList.take 110) ++ "..."
    | none => String.mk (q.toList.take 110) ++ "..."

/-! ### Specialty extraction (`extractSpecialties`) -/

/-- The keyword table of `extractSpecialties`, in source order. -/
def specialtyMappings : List (String × List String) :=
  [("cardiology", ["cardiology", "cardiologist", "heart", "chest pain",
      "palpitations", "hypertension", "blood pressure"]),
   ("neurology", ["neurology", "neurologist", "headache", "migraine",
      "seizure", "numbness", "tingling", "stroke", "brain"]),
   ("orthopedics", ["orthopedics", "orthopedic", "bone", "joint", "fracture",
      "sprain", "back pain", "knee pain", "shoulder pain"]),
   ("gastroenterology", ["gastroenterology", "gastroenterologist", "stomach",
      "abdomen", "nausea", "vomiting", "diarrhea", "constipation"]),
   ("dermatology", ["dermatology", "dermatologist", "skin", "rash", "acne",
      "mole", "itching", "dermatitis"]),
   ("ophthalmology", ["ophthalmology", "ophthalmologist", "eye", "vision",
      "blurred", "red eye", "eye pain"]),
   ("ent", ["ent", "otolaryngology", "ear", "nose", "throat", "hearing",
      "sinus", "tonsils"]),
   ("pulmonology", ["pulmonology", "pulmonologist", "lung", "breathing",
      "cough", "asthma", "pneumonia"]),
   ("endocrinology", ["endocrinology", "endocrinologist", "diabetes",
      "thyroid", "hormone", "metabolism"]),
   ("urology", ["urology", "urologist", "urinary", "bladder", "kidney",
      "prostate"]),
   ("gynecology", ["gynecology", "gynecologist", "women", "menstrual",
      "pregnancy", "ovarian"]),
   ("pediatrics", ["pediatrics", "pediatrician", "child", "baby", "infant",
      "adolescent"]),
   ("emergency", ["emergency", "urgent", "acute", "trauma", "injury"]),
   ("internal", ["internal medicine", "general medicine", "primary care",
      "family medicine"])]

/-- The symptom fallback table of `extractSpecialties`, in source order. -/
def symptomSpecialtyMap : List (String × String) :=
  [("chest pain", "cardiology"), ("shortness of breath", "pulmonology"),
   ("headache", "neurology"), ("abdominal pain", "gastroenterology"),
   ("skin rash", "dermatology"), ("eye problem", "ophthalmology"),
   ("ear pain", "ent"), ("joint pain", "orthopedics"),
   ("fever", "internal"), ("fatigue", "internal"),
   ("weight loss", "endocrinology"), ("urinary problem", "urology")]

/-- The two lookup passes of `extractSpecialties`: the keyword pass over
all 14 specialties in order, then the first-match symptom fallback. -/
def extractSpecialtiesFound (specialtyText : String) : List String :=
  let lowerText := jsToLower specialtyText
  let keywordHits :=
    (specialtyMappings.filter
      (fun p => p.2.any (fun kw => jsIncludes lowerText kw))).map (fun p => p.1)
  if keywordHits.isEmpty then
    match symptomSpecialtyMap.find? (fun p => jsIncludes lowerText p.1) with
    | some p => [p.2]
    | none => []
  else keywordHits

/-- `extractSpecialties` from the source: the two lookup passes, then the
`internal` default. -/
def extractSpecialties (specialtyText : String) : List String :=
  if (extractSpecialtiesFound specialtyText).isEmpty then ["internal"]
  else extractSpecialtiesFound specialtyText

/-! ### The summary parser (`parseGeminiSummarySections`)

The source tries four regexes in priority order and falls back to a
line-by-line scan.  Each regex is modelled by a hand-rolled scanner with
JavaScript `exec`-loop semantics: scan for the first heading occurrence,
capture the heading, skip `[\r\n]*`, then take the lazy body up to the
first position where the lookahead (next heading, or end of input)
succeeds, and continue from there. -/

/-- `\r` or `\n` (the `[\r\n]*` class). -/
def isRN (c : Char) : Bool :=
  c = '\r' || c = '\n'

/-- JavaScript line terminators (`\n`, `\r`, U+2028, U+2029) recognised by
multiline `^`/`$`. -/
def isLineTerm (c : Char) : Bool :=
  c = '\n' || c = '\r' || c = ' ' || c = ' '

/-- Heading matcher of pattern 1, `\*\*([\w\s\-]+):\*\*`: returns the
captured heading and the input after the consumed header. -/
def matchHead1 : List Char → Option (List Char × List Char)
  | '*' :: '*' :: rest =>
    match rest.takeWhile isHeadingChar, rest.dropWhile isHeadingChar with
    | [], _ => none
    | h, ':' :: '*' :: '*' :: r2 => some (h, r2)
    | _, _ => none
  | _ => none

/-- Heading matcher of pattern 2, `\*\*([\w\s\-]+)\*\*` (no colon). -/
def matchHead2 : List Char → Option (List Char × List Char)
  | '*' :: '*' :: rest =>
    match rest.takeWhile isHeadingChar, rest.dropWhile isHeadingChar with
    | [], _ => none
    | h, '*' :: '*' :: r2 => some (h, r2)
    | _, _ => none
  | _ => none

/-- Heading matcher of pattern 3, `##\s*([\w\s\-]+)`.  Since `\s ⊆ [\w\s\-]`,
the pattern matches exactly when `##` is followed by one more class
character; the capture is the maximal class run after the whitespace when
one exists, else (by backtracking one `\s*` character) the last whitespace
character alone. -/
def matchHead3 : List Char → Option (List Char × List Char)
  | '#' :: '#' :: rest =>
    let w := rest.takeWhile isJsSpace
    let rest' := rest.dropWhile isJsSpace
    match rest' with
    | c :: _ =>
      if isHeadingChar c then
        some (rest'.takeWhile isHeadingChar, rest'.dropWhile isHeadingChar)
      else
        match w.reverse with
        | lastW :: _ => some ([lastW], rest')
        | [] => none
    | [] =>
      match w.reverse with
      | lastW :: _ => some ([lastW], rest')
      | [] => none
  | _ => none

/-- Heading matcher of pattern 4, `^([A-Z][\w\s\-]+):` under the `i` flag
(so the initial class is any ASCII letter); only applied at line starts. -/
def matchHead4 : List Char → Option (List Char × List Char)
  | c :: rest =>
    if c.isAlpha then
      match rest.takeWhile isHeadingChar, rest.dropWhile isHeadingChar with
      | [], _ => none
      | run, ':' :: r2 => some (c :: run, r2)
      | _, _ => none
    else none
  | [] => none

/-- Scan for the first position where `hm` matches. -/
def findHead (hm : List Char → Option (List Char × List Char)) :
    List Char → Option (List Char × List Char)
  | [] => none
  | c :: t =>
    match hm (c :: t) with
    | some r => some r
    | none => findHead hm t

/-- Lazy body capture: take characters until the lookahead `la` succeeds
(`$` being the end of input). -/
def takeUntil (la : List Char → Bool) : List Char → List Char × List Char
  | [] => ([], [])
  | c :: t =>
    if la (c :: t) then ([], c :: t)
    else
      let (a, b) := takeUntil la t
      (c :: a, b)

/-- One `exec`-loop for patterns 1–3: emit `(type, content)` for each match
whose trimmed type is nonempty and whose trimmed content exceeds 10
characters.  `fuel` dominates the input length; every match consumes at
least one character. -/
def passLoopAux (hm : List Char → Option (List Char × List Char))
    (la : List Char → Bool) : Nat → List Char → List (String × String)
  | 0, _ => []
  | fuel + 1, l =>
    match findHead hm l with
    | none => []
    | some (h, rest) =>
      let rest2 := rest.dropWhile isRN
      let (content, rest3) := takeUntil la rest2
      let ty := ltrim h
      let co := ltrim content
      let secs := passLoopAux hm la fuel rest3
      if ty ≠ [] ∧ co.length > 10 then (String.mk ty, String.mk co) :: secs
      else secs

/-- Pattern-1 pass. -/
def pass1 (l : List Char) : List (String × String) :=
  passLoopAux matchHead1 (fun x => (matchHead1 x).isSome) (l.length + 1) l

/-- Pattern-2 pass. -/
def pass2 (l : List Char) : List (String × String) :=
  passLoopAux matchHead2 (fun x => (matchHead2 x).isSome) (l.length + 1) l

/-- Pattern-3 pass. -/
def pass3 (l : List Char) : List (String × String) :=
  passLoopAux matchHead3 (fun x => (matchHead3 x).isSome) (l.length + 1) l

/-- Scan for the first *line-start* position where pattern 4's heading
matches; `atLS` says whether the current position follows a line
terminator (or is the start of input). -/
def findHead4 : Bool → List Char → Option (List Char × List Char)
  | _, [] => none
  | atLS, c :: t =>
    match (if atLS then matchHead4 (c :: t) else none) with
    | some r => some r
    | none => findHead4 (isLineTerm c) t

/-- Lazy body capture for pattern 4 under the `m` flag: stop before a line
terminator (`$`) or at a line-start heading; also returns the line-start
flag at the stop position. -/
def takeContent4 : Bool → List Char → List Char × Bool × List Char
  | atLS, [] => ([], atLS, [])
  | atLS, c :: t =>
    if isLineTerm c then ([], atLS, c :: t)
    else if atLS && (matchHead4 (c :: t)).isSome then ([], atLS, c :: t)
    else
      let (a, f, b) := takeContent4 false t
      (c :: a, f, b)

/-- The `exec`-loop for pattern 4 (`gmi` flags). -/
def pass4Aux : Nat → Bool → List Char → List (String × String)
  | 0, _, _ => []
  | fuel + 1, atLS, l =>
    match findHead4 atLS l with
    | none => []
    | some (h, rest) =>
      let dropped := rest.takeWhile isRN
      let rest2 := rest.dropWhile isRN
      let (content, _, rest3) := takeContent4 (!dropped.isEmpty) rest2
      let ty := ltrim h
      let co := ltrim content
      let secs := pass4Aux fuel true rest3
      if ty ≠ [] ∧ co.length > 10 then (String.mk ty, String.mk co) :: secs
      else secs

/-- Pattern-4 pass. -/
def pass4 (l : List Char) : List (String × String) :=
  pass4Aux (l.length + 1) true l

/-! #### Fallback line scan -/

/-- Fallback header regex (a): `\*\*([\w\s\-]+):?\*\*`, anywhere in the
line; returns the capture. -/
def matchHeadA : List Char → Option (List Char)
  | '*' :: '*' :: rest =>
    match rest.takeWhile isHeadingChar, rest.dropWhile isHeadingChar with
    | [], _ => none
    | h, ':' :: '*' :: '*' :: _ => some h
    | h, '*' :: '*' :: _ => some h
    | _, _ => none
  | _ => none

/-- Fallback header regex (b): `##\s*([\w\s\-]+)`, anywhere in the line. -/
def matchHeadB (l : List Char) : Option (List Char) :=
  (matchHead3 l).map (fun r => r.1)

/-- Fallback header regex (c): `^([A-Z][\w\s\-]+):\s*$` over the whole
line (`i` flag: any ASCII letter). -/
def matchHeadC : List Char → Option (List Char)
  | c :: rest =>
    if c.isAlpha then
      match rest.takeWhile isHeadingChar, rest.dropWhile isHeadingChar with
      | [], _ => none
      | run, ':' :: r2 => if r2.all isJsSpace then some (c :: run) else none
      | _, _ => none
    else none
  | [] => none

/-- Scan a line for the first position where `m` matches. -/
def findFirst (m : List Char → Option (List Char)) : List Char → Option (List Char)
  | [] => m []
  | c :: t =>
    match m (c :: t) with
    | some r => some r
    | none => findFirst m t

/-- The fallback `headerMatch`: regex (a), else (b), else (c). -/
def fallbackHeader (line : List Char) : Option (List Char) :=
  match findFirst matchHeadA line with
  | some h => some h
  | none =>
    match findFirst matchHeadB line with
    | some h => some h
    | none => matchHeadC line

/-- One step of the fallback accumulation over a line. -/
def fallbackStep (acc : List (String × String) × Option (List Char × List Char))
    (line : List Char) : List (String × String) × Option (List Char × List Char) :=
  let (secs, cur) := acc
  match fallbackHeader line with
  | some h =>
    let secs' :=
      match cur with
      | some (ty, co) =>
        if ltrim co ≠ [] then secs ++ [(String.mk ty, String.mk co)] else secs
      | none => secs
    (secs', some (ltrim h, []))
  | none =>
    if ltrim line ≠ [] then
      match cur with
      | some (ty, co) =>
        (secs, some (ty, co ++ (if co ≠ [] then ['\n'] else []) ++ ltrim line))
      | none =>
        if line.length > 20 ∧ secs = [] then
          (secs, some ("Medical Assessment".toList, ltrim line))
        else (secs, none)
    else (secs, cur)

/-- The fallback line-by-line scan of `parseGeminiSummarySections`. -/
def fallbackScan (l : List Char) : List (String × String) :=
  let (secs, cur) := (lsplit '\n' l).foldl fallbackStep ([], none)
  match cur with
  | some (ty, co) =>
    if ltrim co ≠ [] then secs ++ [(String.mk ty, String.mk co)] else secs
  | none => secs

/-- `parseGeminiSummarySections` from the source: empty/whitespace guard,
then the four regex passes in priority order (first pass producing at
least one section wins), then the fallback scan. -/
def parseGeminiSummarySections (summary : String) : List (String × String) :=
  if (jsTrim summary).length = 0 then []
  else
    let l := summary.toList
    let p1 := pass1 l
    if p1 ≠ [] then p1
    else
      let p2 := pass2 l
      if p2 ≠ [] then p2
      else
        let p3 := pass3 l
        if p3 ≠ [] then p3
        else
          let p4 := pass4 l
          if p4 ≠ [] then p4
          else fallbackScan l

/-! ### The summary pipeline of `proceedToSummary` -/

/-- The error-marker test applied to the raw completion text. -/
def containsErrMarker (t : String) : Bool :=
  jsIncludes t "apologize" || jsIncludes t "trouble connecting" ||
  jsIncludes t "API key" || jsIncludes t "authentication failed" ||
  jsIncludes t "quota" || jsIncludes t "limit"

/-- JavaScript-object style grouping: append `v` under key `k`, keeping
first-seen key order. -/
def groupAdd (acc : List (String × List String)) (k : String) (v : String) :
    List (String × List String) :=
  if acc.any (fun p => p.1 = k) then
    acc.map (fun p => if p.1 = k then (p.1, p.2 ++ [v]) else p)
  else acc ++ [(k, [v])]

/-- `sections.reduce(...)` of `proceedToSummary`: group contents by
`type.trim()`. -/
def groupByType (secs : List (String × String)) : List (String × List String) :=
  secs.foldl (fun acc s => groupAdd acc (jsTrim s.1) s.2) []

/-- Outcome of the summary phase, given the raw completion text. -/
inductive SummaryOutcome where
  | failed (msg : String)
  | raw (text : String)
  | emitted (secs : List (String × String)) (specialties : List String)
  deriving DecidableEq, Repr

/-- The pure part of `proceedToSummary` after the completion call: error
markers surface an error; an unparseable non-empty response is passed
through raw; otherwise sections are grouped, the specialty section is
consumed by `extractSpecialties` and excluded from the emitted list. -/
def summaryOutcome (aiResponseText : String) : SummaryOutcome :=
  if containsErrMarker aiResponseText then .failed aiResponseText
  else
    let secs := parseGeminiSummarySections aiResponseText
    if secs = [] then
      if (jsTrim aiResponseText).length > 0 then .raw aiResponseText
      else .failed "unparseable"
    else
      let specialtySec := secs.find? (fun s =>
        jsIncludes (jsToLower s.1) "recommended specialty" ||
        jsIncludes (jsToLower s.1) "specialty")
      let specialtyText :=
        match specialtySec with
        | some s => jsTrim (jsToLower s.2)
        | none => "general medicine"
      let specialties := extractSpecialties specialtyText
      let out := ((groupByType secs).filter
        (fun p => !(jsIncludes (jsToLower (jsTrim p.1)) "specialty"))).map
        (fun p => (p.1, String.intercalate "\n\n" p.2))
      .emitted out specialties

/-! ### Messages and conversation state

`handleDynamicAnswer` exists in the source but is never wired to the UI
(`InteractiveMessage` receives `handleOptionSelect` and
`handleCustomStaticAnswer` only), so the event alphabet below consists of
the three reachable handlers.  Message ids are strictly increasing in
every reachable log, so the id-keyed update of `handleOptionSelect` is
modelled positionally. -/

inductive Sender where
  | user
  | ai
  deriving DecidableEq, Repr

structure Message where
  sender : Sender
  text : Option String := none
  isInteractive : Bool := false
  question : Option String := none
  options : List (String × String) := []
  selectedOption : Option String := none
  deriving DecidableEq, Repr

structure DynamicQuestion where
  question : String
  options : List String
  deriving DecidableEq, Repr

/-- `MAX_TOTAL_QUESTIONS`. -/
def MAX_TOTAL_QUESTIONS : Nat := 10

/-- The static `conversationFlow` question bank (question text and
`(label, value)` options), verbatim from the source. -/
def conversationFlow : List (String × List (String × String)) :=
  [("How long have you had these symptoms?",
    [("Less than 24 hours", "less_than_24h"), ("1-3 days", "1_3_days"),
     ("4-7 days", "4_7_days"), ("More than a week", "more_than_week")]),
   ("How severe are your symptoms?",
    [("Mild", "mild"), ("Moderate", "moderate"), ("Severe", "severe")]),
   ("What event or situation might have caused these symptoms?",
    [("Recent illness or infection", "recent_illness"),
     ("Missed regular medication", "missed_medication"),
     ("Smoking/alchole habit", "smoking_alchole_habit"),
     ("Food and diety changes", "food_diety_changes")]),
   ("Do you have any previous medical history?",
    [("Hypertension", "hypertension"), ("Diabetes", "diabetes"),
     ("Thyroid disease", "thyroid_disease"), ("Lung diseases", "lung_diseases"),
     ("Asthma", "asthma"), ("No significant history", "none")])]

/-- `m.isInteractive && m.question`. -/
def isQMsg (m : Message) : Bool :=
  m.isInteractive && m.question.isSome

/-- `totalQuestionsAsked()`. -/
def totalQuestionsAskedM (msgs : List Message) : Nat :=
  (msgs.filter isQMsg).length

/-- `getAllAskedQuestions()`: lower-cased, trimmed question texts. -/
def getAllAskedQuestionsM (msgs : List Message) : List String :=
  (msgs.filter isQMsg).map (fun m => jsTrim (jsToLower (m.question.getD "")))

/-- `isSimilarQuestion(newQ)` over a message log. -/
def isSimilarQuestionM (msgs : List Message) (newQ : String) : Bool :=
  ((msgs.filter isQMsg).map (fun m => m.question.getD "")).any
    (fun q => areQuestionsSimilar q newQ)

/-- JavaScript-object update: overwrite in place or append. -/
def objSet (acc : List (String × String)) (k v : String) : List (String × String) :=
  if acc.any (fun p => p.1 = k) then
    acc.map (fun p => if p.1 = k then (k, v) else p)
  else acc ++ [(k, v)]

/-- `getAllUserAnswers()`: pair each interactive question with the next
user message. -/
def getAllUserAnswersM (msgs : List Message) : List (String × String) :=
  (msgs.foldl (fun (acc : List (String × String) × Option String) m =>
    if isQMsg m then (acc.1, m.question)
    else
      match m.sender, acc.2 with
      | .user, some q => (objSet acc.1 q (m.text.getD ""), none)
      | _, _ => acc) ([], none)).1

/-- First user message's text (`the main complaint`). -/
def mainComplaintM (msgs : List Message) : String :=
  match msgs.find? (fun m => match m.sender with | .user => true | .ai => false) with
  | some m => m.text.getD ""
  | none => ""

/-- JavaScript `replace(/\s+/g, '_')` (structural recursion on a fuel
that dominates the length; every step consumes at least one character). -/
def wsRunsToUnderscoreGo : Nat → List Char → List Char
  | 0, l => l
  | _ + 1, [] => []
  | gas + 1, c :: t =>
    if isJsSpace c then '_' :: wsRunsToUnderscoreGo gas (t.dropWhile isJsSpace)
    else c :: wsRunsToUnderscoreGo gas t

/-- JavaScript `replace(/\s+/g, '_')`. -/
def wsRunsToUnderscore (l : List Char) : List Char :=
  wsRunsToUnderscoreGo l.length l

/-- `toInteractiveOptions` on a string list: label is the option, value is
the lower-cased option with whitespace runs replaced by `_`. -/
def toInteractiveOptions (opts : List String) : List (String × String) :=
  opts.map (fun o => (o, String.mk (wsRunsToUnderscore (jsToLower o).toList)))

/-! ### The dynamic-question generator (`callGeminiForDynamicQuestions`) -/

/-- Outcome of one completion call: a response text, or a thrown error. -/
inductive AIResult where
  | ok (text : String)
  | fail
  deriving DecidableEq, Repr

/-- `^\d+\.` on a character list. -/
def startsNumDot (l : List Char) : Bool :=
  match l.takeWhile Char.isDigit, l.dropWhile Char.isDigit with
  | [], _ => false
  | _, '.' :: _ => true
  | _, _ => false

/-- `replace(/^\d+\.\s*/, '')`. -/
def stripNumDot (l : List Char) : List Char :=
  match l.takeWhile Char.isDigit, l.dropWhile Char.isDigit with
  | [], _ => l
  | _, '.' :: r => r.dropWhile isJsSpace
  | _, _ => l

/-- `^[-•*]`. -/
def startsBullet (l : List Char) : Bool :=
  match l with
  | c :: _ => c = '-' || c = '•' || c = '*'
  | [] => false

/-- `replace(/^[-•*]\s*/, '')`. -/
def stripBullet (l : List Char) : List Char :=
  match l with
  | c :: t => if c = '-' || c = '•' || c = '*' then t.dropWhile isJsSpace else l
  | [] => l

/-- `^[a-z]\)` with the `i` flag. -/
def startsLetterParen (l : List Char) : Bool :=
  match l with
  | c :: ')' :: _ => c.isAlpha
  | _ => false

/-- `replace(/^[a-z]\)\s*/i, '')`. -/
def stripLetterParen (l : List Char) : List Char :=
  match l with
  | c :: ')' :: t => if c.isAlpha then t.dropWhile isJsSpace else l
  | _ => l

/-- `^[A-Z][a-z]+` (no `i` flag): capital letter then at least one
lower-case letter. -/
def startsCapWord (l : List Char) : Bool :=
  match l with
  | a :: b :: _ => (a.isUpper && b.isLower)
  | _ => false

/-- Strip a case-insensitive literal prefix followed by `\s*`; `none` when
the prefix does not match. -/
def stripCIPrefix (pre : List Char) (l : List Char) : Option (List Char) :=
  if lstartsWith (pre.map Char.toLower) (l.map Char.toLower) then
    some ((l.drop pre.length).dropWhile isJsSpace)
  else none

/-- `replace(/^question:\s*/i, '')`. -/
def stripQuestionPrefix (l : List Char) : List Char :=
  (stripCIPrefix "question:".toList l).getD l

/-- `replace(/^(question|q|ask):\s*/i, '')` (alternatives tried left to
right, as the regex engine does). -/
def stripQOrAskPrefix (l : List Char) : List Char :=
  match stripCIPrefix "question:".toList l with
  | some r => r
  | none =>
    match stripCIPrefix "q:".toList l with
    | some r => r
    | none => (stripCIPrefix "ask:".toList l).getD l

/-- The generic fallback question and options. -/
def genericQuestion : String := "Can you provide more details about your symptoms?"

def genericOptions : List String := ["Yes", "No", "Not sure", "Need to clarify"]

/-- The response parser of `callGeminiForDynamicQuestions` (non-sentinel
path): layered question extraction, the 110-character truncation, layered
option extraction, and the generic fallback. -/
def parseDynamicResponse (text : String) : DynamicQuestion :=
  let lines := (lsplit '\n' text.toList).filter (fun l => ltrim l ≠ [])
  let qline :=
    match lines.find? (fun l => lstartsWith "question:".toList (l.map Char.toLower)) with
    | some l => some l
    | none => lines.find? (fun l => !startsNumDot (ltrim l) && (ltrim l).length > 10)
  let question :=
    match qline with
    | some l => ltrim (stripQuestionPrefix l)
    | none => []
  let question := (truncateQuestion (String.mk question)).toList
  let opts1 :=
    ((lines.filter (fun l => startsNumDot (ltrim l))).map
      (fun l => ltrim (stripNumDot l))).filter (fun o => o ≠ [])
  let opts2 :=
    if opts1.length < 2 then
      ((lines.filter (fun l => startsBullet (ltrim l))).map
        (fun l => ltrim (stripBullet l))).filter (fun o => o ≠ [])
    else opts1
  if question = [] ∨ opts2.length < 2 then
    let question :=
      if question = [] then
        match lines with
        | l :: _ => ltrim (stripQOrAskPrefix (ltrim l))
        | [] => question
      else question
    let opts3 :=
      if opts2.length < 2 then
        ((lines.filter (fun l =>
            let t := ltrim l
            t ≠ [] && (startsLetterParen t || startsBullet t || startsCapWord t))).map
          (fun l => ltrim (stripBullet (stripLetterParen l)))).filter
          (fun o => o ≠ [] ∧ o.length < 100)
      else opts2
    { question := if question = [] then genericQuestion else String.mk question,
      options := if opts3.length ≥ 2 then opts3.map String.mk else genericOptions }
  else
    { question := String.mk question, options := opts2.map String.mk }

/-- The context-aware fallback used when the completion call throws. -/
def smartFallback (mainComplaint : String) (answerCount : Nat) : DynamicQuestion :=
  if jsIncludes (jsToLower mainComplaint) "pain" then
    { question := "Where exactly is the pain located?",
      options := ["Head", "Chest", "Abdomen", "Back", "Limbs"] }
  else if jsIncludes (jsToLower mainComplaint) "fever" then
    { question := "What is your current body temperature?",
      options := ["Below 100°F", "100-102°F", "Above 102°F", "Not measured"] }
  else if jsIncludes (jsToLower mainComplaint) "cough" then
    { question := "Is the cough dry or productive?",
      options := ["Dry cough", "With phlegm", "Blood in cough", "Not sure"] }
  else if answerCount ≥ 4 then
    { question := "Are there any other symptoms you haven't mentioned?",
      options := ["Yes, there are more", "No, that's all", "Not sure", "Need to think"] }
  else { question := genericQuestion, options := genericOptions }

/-- `callGeminiForDynamicQuestions`, given the outcome of the completion
call (an API key is assumed configured): a thrown error degrades to the
smart fallback; a response whose trimmed upper-cased text contains
`ENOUGH_INFO` yields `none` (proceed to summary); anything else is parsed
into a question. -/
def callGeminiDyn (mainComplaint : String) (answerCount : Nat) :
    AIResult → Option DynamicQuestion
  | .fail => some (smartFallback mainComplaint answerCount)
  | .ok text =>
    if jsIncludes (jsToUpper (jsTrim text)) "ENOUGH_INFO" then none
    else some (parseDynamicResponse text)

/-! ### Conversation state and event handlers -/

/-- The component state (ghost field `presented` counts the question
messages actually presented, i.e. the `mkQuestionMsg` appends; the log
itself can carry duplicated question messages because
`handleCustomStaticAnswer`'s stale positional update copies the
interactive message over the user's reply). -/
structure ChatState where
  messages : List Message := []
  userAnswers : List (String × String) := []
  conversationStep : Nat := 0
  askedQuestionIds : List String := []
  allAskedQuestions : List String := []
  dynamicQuestions : List DynamicQuestion := []
  dynamicAnswers : List String := []
  currentDynamicIndex : Nat := 0
  currentlyShowingInteractive : Bool := false
  summarizing : Bool := false
  genIdx : Nat := 0
  presented : Nat := 0
  deriving DecidableEq, Repr

/-- A fresh session. -/
def initState : ChatState := {}

def mkQuestionMsg (q : String) (opts : List (String × String)) : Message :=
  { sender := .ai, isInteractive := true, question := some q, options := opts }

def mkUserMsg (t : String) : Message :=
  { sender := .user, text := some t }

/-- Insert into a JavaScript `Set` (insertion order, no duplicates). -/
def insertUniq (l : List String) (x : String) : List String :=
  if x ∈ l then l else l ++ [x]

/-- `proceedToSummary`, modelled as entering the summarising phase (the
summary-emission pipeline itself is `summaryOutcome`). -/
def markSummarizing (s : ChatState) : ChatState :=
  { s with summarizing := true, currentlyShowingInteractive := false }

/-- `getNextAIQuestion` over the snapshot `snap` of the component's
message state: max-question guard, one generation call per attempt, the
duplicate check, and up to 4 retries before giving up.  The source's
`retryCount` `r` corresponds to `attempts = 5 - r`; every call site
starts at `retryCount = 0`, i.e. `attempts = 5` (the `0` pattern mirrors
the unreachable `retryCount ≥ 5`).  Returns the question (if any), the
next oracle index, and whether `proceedToSummary` was invoked. -/
def getNextAIQuestionAux (oracle : Nat → AIResult) (snap : List Message) :
    Nat → Nat → Option DynamicQuestion × Nat × Bool
  | 0, idx => (none, idx, true)
  | attempts + 1, idx =>
    if totalQuestionsAskedM snap ≥ MAX_TOTAL_QUESTIONS then (none, idx, true)
    else
      match callGeminiDyn (mainComplaintM snap) (getAllUserAnswersM snap).length
          (oracle idx) with
      | none => (none, idx + 1, true)
      | some dq =>
        if isSimilarQuestionM snap dq.question then
          if attempts = 0 then (none, idx + 1, true)
          else getNextAIQuestionAux oracle snap attempts (idx + 1)
        else (some dq, idx + 1, false)

/-- The message-log transformation shared by `handleOptionSelect`: the
stale last message gets its `selectedOption` set in place (positional,
ids being unique) and the user's reply is appended after it. -/
def pickBaseMsgs (msgs : List Message) (cur : Message) (value label : String) :
    List Message :=
  msgs.dropLast ++ [{ cur with selectedOption := some value }, mkUserMsg label]

/-- The message-log transformation of `handleCustomStaticAnswer`: the
user's reply is appended, then the stale positional update replaces that
reply with a copy of the last interactive message carrying
`selectedOption` (duplicating the question message in the log). -/
def customBaseMsgs (msgs : List Message) (answer : String) : List Message :=
  match msgs.getLast? with
  | some last =>
    if last.isInteractive then msgs ++ [{ last with selectedOption := some answer }]
    else msgs ++ [mkUserMsg answer]
  | none => msgs ++ [mkUserMsg answer]

/-- `handleSendMessage`. -/
def handleSendMessage (oracle : Nat → AIResult) (s : ChatState) (text : String) :
    ChatState :=
  if (jsTrim text).length = 0 then s
  else if h : s.conversationStep < conversationFlow.length then
    { s with
      messages := (s.messages ++ [mkUserMsg text]) ++
        [mkQuestionMsg (conversationFlow.get ⟨s.conversationStep, h⟩).1
          (conversationFlow.get ⟨s.conversationStep, h⟩).2],
      currentlyShowingInteractive := true,
      conversationStep := s.conversationStep + 1,
      presented := s.presented + 1 }
  else
    match getNextAIQuestionAux oracle s.messages 5 s.genIdx with
    | (some dq, idx2, summ) =>
      { s with
        messages := (s.messages ++ [mkUserMsg text]) ++
          [mkQuestionMsg dq.question (toInteractiveOptions dq.options)],
        currentlyShowingInteractive := true,
        summarizing := s.summarizing || summ,
        genIdx := idx2,
        presented := s.presented + 1 }
    | (none, idx2, summ) =>
      { s with
        messages := s.messages ++ [mkUserMsg text],
        currentlyShowingInteractive := false,
        summarizing := s.summarizing || summ,
        genIdx := idx2 }

/-- The next unasked static question index (`while` loop of
`handleOptionSelect`), probing the stale `askedQuestionIds`; the fuel
`conversationFlow.length` dominates the number of loop iterations. -/
def findNextStepGo (ids : List String) : Nat → Nat → Nat
  | 0, i => i
  | gas + 1, i =>
    if h : i < conversationFlow.length then
      if normalizeQuestion (conversationFlow.get ⟨i, h⟩).1 ∈ ids then
        findNextStepGo ids gas (i + 1)
      else i
    else i

def findNextStep (ids : List String) (i : Nat) : Nat :=
  findNextStepGo ids conversationFlow.length i

/-- `handleOptionSelect`. -/
def handleOptionSelect (oracle : Nat → AIResult) (s : ChatState)
    (label value : String) : ChatState :=
  if !s.currentlyShowingInteractive then s
  else
    match s.messages.getLast? with
    | none => s
    | some cur =>
      if s.conversationStep < conversationFlow.length then
        if h : findNextStep s.askedQuestionIds (s.conversationStep + 1) <
            conversationFlow.length then
          { s with
            askedQuestionIds := insertUniq s.askedQuestionIds
              (normalizeQuestion (cur.question.getD "")),
            userAnswers := objSet s.userAnswers (cur.question.getD "") value,
            conversationStep := findNextStep s.askedQuestionIds
              (s.conversationStep + 1),
            messages := pickBaseMsgs s.messages cur value label ++
              [mkQuestionMsg
                (conversationFlow.get
                  ⟨findNextStep s.askedQuestionIds (s.conversationStep + 1), h⟩).1
                (conversationFlow.get
                  ⟨findNextStep s.askedQuestionIds (s.conversationStep + 1), h⟩).2],
            currentlyShowingInteractive := true,
            presented := s.presented + 1 }
        else
          match callGeminiDyn (mainComplaintM s.messages)
              (objSet s.userAnswers (cur.question.getD "") value).length
              (oracle s.genIdx) with
          | some dq =>
            if dq.question ≠ "" ∧ ¬ normalizeQuestion dq.question ∈ s.askedQuestionIds ∧
                ¬ isSimilarQuestionM s.messages dq.question = true then
              { s with
                askedQuestionIds := insertUniq
                  (insertUniq s.askedQuestionIds
                    (normalizeQuestion (cur.question.getD "")))
                  (normalizeQuestion dq.question),
                userAnswers := objSet s.userAnswers (cur.question.getD "") value,
                conversationStep := conversationFlow.length,
                genIdx := s.genIdx + 1,
                messages := pickBaseMsgs s.messages cur value label ++
                  [mkQuestionMsg dq.question (toInteractiveOptions dq.options)],
                currentlyShowingInteractive := true,
                dynamicQuestions := [dq],
                currentDynamicIndex := 0,
                presented := s.presented + 1 }
            else
              { s with
                askedQuestionIds := insertUniq s.askedQuestionIds
                  (normalizeQuestion (cur.question.getD "")),
                userAnswers := objSet s.userAnswers (cur.question.getD "") value,
                conversationStep := conversationFlow.length,
                genIdx := s.genIdx + 1,
                messages := pickBaseMsgs s.messages cur value label,
                currentlyShowingInteractive := false,
                summarizing := true }
          | none =>
            { s with
              askedQuestionIds := insertUniq s.askedQuestionIds
                (normalizeQuestion (cur.question.getD "")),
              userAnswers := objSet s.userAnswers (cur.question.getD "") value,
              conversationStep := conversationFlow.length,
              genIdx := s.genIdx + 1,
              messages := pickBaseMsgs s.messages cur value label,
              currentlyShowingInteractive := false,
              summarizing := true }
      else
        match callGeminiDyn (mainComplaintM s.messages)
            (getAllUserAnswersM s.messages).length (oracle s.genIdx) with
        | some dq =>
          if totalQuestionsAskedM s.messages < MAX_TOTAL_QUESTIONS then
            if ¬ normalizeQuestion dq.question ∈ s.askedQuestionIds ∧
                ¬ isSimilarQuestionM s.messages dq.question = true then
              { s with
                askedQuestionIds := insertUniq s.askedQuestionIds
                  (normalizeQuestion (cur.question.getD "")),
                userAnswers := objSet s.userAnswers (cur.question.getD "") value,
                genIdx := s.genIdx + 1,
                messages := pickBaseMsgs s.messages cur value label ++
                  [mkQuestionMsg dq.question (toInteractiveOptions dq.options)],
                currentlyShowingInteractive := true,
                dynamicQuestions := s.dynamicQuestions ++ [dq],
                currentDynamicIndex := s.currentDynamicIndex + 1,
                presented := s.presented + 1 }
            else
              { s with
                askedQuestionIds := insertUniq s.askedQuestionIds
                  (normalizeQuestion (cur.question.getD "")),
                userAnswers := objSet s.userAnswers (cur.question.getD "") value,
                genIdx := s.genIdx + 1,
                messages := pickBaseMsgs s.messages cur value label,
                currentlyShowingInteractive := false,
                summarizing := true }
          else
            { s with
              askedQuestionIds := insertUniq s.askedQuestionIds
                (normalizeQuestion (cur.question.getD "")),
              userAnswers := objSet s.userAnswers (cur.question.getD "") value,
              genIdx := s.genIdx + 1,
              messages := pickBaseMsgs s.messages cur value label,
              currentlyShowingInteractive := false,
              summarizing := true }
        | none =>
          { s with
            askedQuestionIds := insertUniq s.askedQuestionIds
              (normalizeQuestion (cur.question.getD "")),
            userAnswers := objSet s.userAnswers (cur.question.getD "") value,
            genIdx := s.genIdx + 1,
            messages := pickBaseMsgs s.messages cur value label,
            currentlyShowingInteractive := false,
            summarizing := true }

/-- The `userAnswers` update of `handleCustomStaticAnswer` (the answer is
recorded under `conversationFlow[conversationStep]`, i.e. under the fixed
question *after* the one presented). -/
def customAnswersUpd (s : ChatState) (answer : String) : List (String × String) :=
  match conversationFlow.get? s.conversationStep with
  | some q => objSet s.userAnswers q.1 answer
  | none => s.userAnswers

/-- `handleCustomStaticAnswer`. -/
def handleCustomStaticAnswer (oracle : Nat → AIResult) (s : ChatState)
    (answer : String) : ChatState :=
  if h : s.conversationStep + 1 < conversationFlow.length then
    { s with
      messages := customBaseMsgs s.messages answer ++
        [mkQuestionMsg (conversationFlow.get ⟨s.conversationStep + 1, h⟩).1
          (conversationFlow.get ⟨s.conversationStep + 1, h⟩).2],
      userAnswers := customAnswersUpd s answer,
      conversationStep := s.conversationStep + 1,
      currentlyShowingInteractive := true,
      allAskedQuestions := s.allAskedQuestions ++
        [jsTrim (jsToLower (conversationFlow.get ⟨s.conversationStep + 1, h⟩).1)],
      askedQuestionIds := insertUniq s.askedQuestionIds
        (jsTrim (jsToLower (conversationFlow.get ⟨s.conversationStep + 1, h⟩).1)),
      presented := s.presented + 1 }
  else
    match getNextAIQuestionAux oracle s.messages 5 s.genIdx with
    | (some dq, idx2, summ) =>
      if totalQuestionsAskedM s.messages < MAX_TOTAL_QUESTIONS then
        if ¬ isSimilarQuestionM s.messages dq.question = true then
          { s with
            messages := customBaseMsgs s.messages answer ++
              [mkQuestionMsg dq.question (toInteractiveOptions dq.options)],
            userAnswers := customAnswersUpd s answer,
            conversationStep := s.conversationStep + 1,
            currentlyShowingInteractive := true,
            summarizing := s.summarizing || summ,
            genIdx := idx2,
            dynamicQuestions := [dq],
            allAskedQuestions := s.allAskedQuestions ++
              [jsTrim (jsToLower dq.question)],
            askedQuestionIds := insertUniq s.askedQuestionIds
              (normalizeQuestion dq.question),
            presented := s.presented + 1 }
        else
          { s with
            messages := customBaseMsgs s.messages answer,
            userAnswers := customAnswersUpd s answer,
            conversationStep := s.conversationStep + 1,
            currentlyShowingInteractive := false,
            summarizing := true,
            genIdx := idx2 }
      else
        { s with
          messages := customBaseMsgs s.messages answer,
          userAnswers := customAnswersUpd s answer,
          conversationStep := s.conversationStep + 1,
          currentlyShowingInteractive := false,
          summarizing := true,
          genIdx := idx2 }
    | (none, idx2, _) =>
      { s with
        messages := customBaseMsgs s.messages answer,
        userAnswers := customAnswersUpd s answer,
        conversationStep := s.conversationStep + 1,
        currentlyShowingInteractive := false,
        summarizing := true,
        genIdx := idx2 }

/-- The events a user can trigger. -/
inductive Event where
  | send (text : String)
  | pick (label value : String)
  | custom (answer : String)
  deriving DecidableEq, Repr

/-- One serialised handler invocation. -/
def step (oracle : Nat → AIResult) (s : ChatState) : Event → ChatState
  | .send t => handleSendMessage oracle s t
  | .pick label value => handleOptionSelect oracle s label value
  | .custom a => handleCustomStaticAnswer oracle s a

/-- States reachable from a fresh session under a fixed oracle. -/
inductive Reachable (oracle : Nat → AIResult) : ChatState → Prop where
  | init : Reachable oracle initState
  | next : ∀ s e, Reachable oracle s → Reachable oracle (step oracle s e)

/-- Run a concrete event list. -/
def run (oracle : Nat → AIResult) (es : List Event) : ChatState :=
  es.foldl (step oracle) initState

/-! ### Session rehydration (`loadSession`) -/

/-- One message of the `conversationStep` reconstruction of `loadSession`:
count a question message whose normalised text is new, while fewer than
`conversationFlow.length` distinct questions have been counted. -/
def rssStep (acc : Nat × List String) (m : Message) : Nat × List String :=
  if isQMsg m ∧ acc.1 < conversationFlow.length then
    if normalizeQuestion (m.question.getD "") ∈ acc.2 then acc
    else (acc.1 + 1, acc.2 ++ [normalizeQuestion (m.question.getD "")])
  else acc

/-- The `conversationStep` reconstruction of `loadSession`. -/
def replayStaticStep (msgs : List Message) : Nat :=
  (msgs.foldl rssStep (0, [])).1

/-- One message of the `userAnswers` reconstruction of `loadSession`. -/
def raStep (acc : List (String × String)) (m : Message) : List (String × String) :=
  if m.isInteractive ∧ m.selectedOption.isSome ∧ m.question.isSome then
    objSet acc (m.question.getD "") (m.selectedOption.getD "")
  else acc

/-- The `userAnswers` reconstruction of `loadSession`. -/
def replayAnswers (msgs : List Message) : List (String × String) :=
  msgs.foldl raStep []

/-- The `allAskedQuestions` reconstruction of `loadSession`. -/
def replayAllAsked (msgs : List Message) : List String :=
  (msgs.filter isQMsg).map (fun m => jsTrim (jsToLower (m.question.getD "")))

/-- The `askedQuestionIds` reconstruction of `loadSession` (a set of
normalised texts). -/
def replayAskedIds (msgs : List Message) : List String :=
  ((msgs.filter isQMsg).map (fun m => normalizeQuestion (m.question.getD ""))).foldl
    insertUniq []

/-- The question texts of the question messages of a log, in order. -/
def qTexts (msgs : List Message) : List String :=
  (msgs.filter isQMsg).map (fun m => m.question.getD "")

/-- `rssStep` restricted to question texts (the reconstruction only looks
at the question text of each question message). -/
def rssStepQ (acc : Nat × List String) (q : String) : Nat × List String :=
  if acc.1 < conversationFlow.length then
    if normalizeQuestion q ∈ acc.2 then acc
    else (acc.1 + 1, acc.2 ++ [normalizeQuestion q])
  else acc

/-- The `conversationStep` reconstruction, computed from question texts. -/
def rssCount (l : List String) : Nat :=
  (l.foldl rssStepQ (0, [])).1

/-- The text of the `i`-th fixed question. -/
def fixedQ (i : Nat) : String :=
  (conversationFlow.getD i ("", [])).1

/-- The live states of a complaint-then-option-selections session: the
interactive question shown last, the answers map in sync with the log, and
the fixed-question index in one of its four reachable stages (the severity
question `conversationFlow[1]` is skipped, so stage 2 shows
`conversationFlow[2]` and stage 3 shows `conversationFlow[3]`; at stage 4
the log already carries four distinct questions). -/
def C7Live (s : ChatState) : Prop :=
  s.currentlyShowingInteractive = true ∧
  s.summarizing = false ∧
  replayAnswers s.messages = s.userAnswers ∧
  ∃ pre cur, s.messages = pre ++ [cur] ∧ cur.isInteractive = true ∧
    cur.selectedOption = none ∧
    ∃ q, cur.question = some q ∧
      ((s.conversationStep = 1 ∧ q = fixedQ 0 ∧ s.askedQuestionIds = [] ∧
          qTexts s.messages = [fixedQ 0]) ∨
       (s.conversationStep = 2 ∧ q = fixedQ 2 ∧
          s.askedQuestionIds = [normalizeQuestion (fixedQ 0)] ∧
          qTexts s.messages = [fixedQ 0, fixedQ 2]) ∨
       (s.conversationStep = 3 ∧ q = fixedQ 3 ∧
          s.askedQuestionIds = [normalizeQuestion (fixedQ 0), normalizeQuestion (fixedQ 2)] ∧
          qTexts s.messages = [fixedQ 0, fixedQ 2, fixedQ 3]) ∨
       (s.conversationStep = conversationFlow.length ∧
          rssCount (qTexts s.messages) = conversationFlow.length))

/-- Invariant of a complaint-then-option-selections session: the state is
fresh, live, or has entered the summarising phase. -/
def C7Inv (s : ChatState) : Prop :=
  s = initState ∨
  (s.currentlyShowingInteractive = false ∧ s.summarizing = true) ∨
  C7Live s

/-! ### Concrete scenarios and projections used by the verification -/

/-- The emitted sections of a summary outcome. -/
def outcomeSections : SummaryOutcome → List (String × String)
  | .emitted secs _ => secs
  | _ => []

/-- The extracted specialty list of a summary outcome. -/
def outcomeSpecialties : SummaryOutcome → List String
  | .emitted _ sp => sp
  | _ => []

/-- The raw completion text of the specification's end-to-end summary
scenario. -/
def c3Raw : String :=
  "**SUMMARY OF CASE:** X\n**URGENCY LEVEL:** Y\n**RECOMMENDED SPECIALTY:** cardiology\n**FIRST AID RECOMMENDATIONS:** Z"

/-- A 111-character question whose only space sits at index 10. -/
def longQ : String :=
  String.mk (List.replicate 10 'a' ++ ' ' :: List.replicate 100 'b')

/-- Completion collaborator answering `ENOUGH_INFO` on every call. -/
def oracleEnough : Nat → AIResult := fun _ => .ok "ENOUGH_INFO"

/-- Completion collaborator that always replies with a restatement of the
first fixed question. -/
def oracleDup : Nat → AIResult :=
  fun _ => .ok "Question: How long have you had these symptoms?\n1. A\n2. B"

/-- Seven pairwise dissimilar dynamic follow-up responses. -/
def dynTexts : List String :=
  ["Question: Do you smoke?\n1. Yes\n2. No",
   "Question: Any known allergies?\n1. Yes\n2. No",
   "Question: Any recent travel abroad?\n1. Yes\n2. No",
   "Question: Are you currently taking medication?\n1. Yes\n2. No",
   "Question: Any family history of illness?\n1. Yes\n2. No",
   "Question: Any recent weight change?\n1. Yes\n2. No",
   "Question: Any trouble sleeping at night?\n1. Yes\n2. No"]

/-- Completion collaborator producing a fresh question on each call. -/
def oracleFresh : Nat → AIResult := fun i => .ok (dynTexts.getD i "x")

/-- Complaint plus an option selection for every fixed question the
controller presents. -/
def fixedFlowEvents : List Event :=
  [.send "I have chest pain",
   .pick "Less than 24 hours" "less_than_24h",
   .pick "Recent illness or infection" "recent_illness",
   .pick "Hypertension" "hypertension"]

/-- The fixed flow followed by six dynamic answers: exactly ten questions
get presented under `oracleFresh`. -/
def c1Events : List Event :=
  fixedFlowEvents ++ List.replicate 6 (.pick "Yes" "yes")

/-- A snapshot with one asked question (used to exercise the retry loop). -/
def snapOneAsked : List Message :=
  [mkUserMsg "I have chest pain",
   mkQuestionMsg "How long have you had these symptoms?" []]

/-- The generation attempt at oracle index `i` yields a question similar to
an already-asked one. -/
def dupGenAt (oracle : Nat → AIResult) (snap : List Message) (i : Nat) : Prop :=
  ∃ dq, callGeminiDyn (mainComplaintM snap) (getAllUserAnswersM snap).length
      (oracle i) = some dq ∧ isSimilarQuestionM snap dq.question = true

/-- Option-selection events. -/
def isPickE : Event → Bool
  | .pick _ _ => true
  | _ => false

/-- The inductive invariant behind the 10-question cap: the number of
questions presented never exceeds 10 and is dominated by the question
messages in the log (the log can exceed it through the duplicate message
copies of `handleCustomStaticAnswer`), and while fixed questions remain
the log's question count is at most twice the fixed index (each fixed-phase
event adds at most one question plus at most one duplicate copy while
advancing the index). -/
def C1Inv (s : ChatState) : Prop :=
  s.presented ≤ 10 ∧
  s.presented ≤ totalQuestionsAskedM s.messages ∧
  (s.conversationStep < conversationFlow.length →
    totalQuestionsAskedM s.messages ≤ 2 * s.conversationStep)

/-- The non-vacuous part of the similarity heuristic: normalised equality,
or containment between normalised forms both longer than 10 characters. -/
def similarCore (q1 q2 : String) : Prop :=
  normalizeQuestion q1 = normalizeQuestion q2 ∨
  ((normalizeQuestion q1).length > 10 ∧ (normalizeQuestion q2).length > 10 ∧
    (jsIncludes (normalizeQuestion q1) (normalizeQuestion q2) = true ∨
     jsIncludes (normalizeQuestion q2) (normalizeQuestion q1) = true))

/-! ## Theorems -/

/-! ### String helper lemmas -/

theorem lstartsWith_iff (p l : List Char) :
    lstartsWith p l = true ↔ ∃ v, l = p ++ v := by
  induction p generalizing l with
  | nil => simp [lstartsWith]
  | cons a as ih =>
    cases l with
    | nil => simp [lstartsWith]
    | cons b bs =>
      simp only [lstartsWith, Bool.and_eq_true, beq_iff_eq, ih, List.cons_append,
        List.cons.injEq]
      constructor
      · rintro ⟨rfl, v, rfl⟩; exact ⟨v, rfl, rfl⟩
      · rintro ⟨v, rfl, rfl⟩; exact ⟨rfl, v, rfl⟩

theorem lcontains_iff (hay needle : List Char) :
    lcontains hay needle = true ↔ ∃ u v, hay = u ++ needle ++ v := by
  induction hay with
  | nil =>
    simp only [lcontains, List.isEmpty_iff]
    constructor
    · rintro rfl; exact ⟨[], [], rfl⟩
    · rintro ⟨u, v, h⟩
      rcases List.append_eq_nil.mp (List.append_eq_nil.mp h.symm).1 with ⟨-, h2⟩
      exact h2
  | cons c t ih =>
    simp only [lcontains, Bool.or_eq_true, lstartsWith_iff, ih]
    constructor
    · rintro (⟨v, hv⟩ | ⟨u, v, hv⟩)
      · exact ⟨[], v, by simp [hv]⟩
      · exact ⟨c :: u, v, by simp [hv]⟩
    · rintro ⟨u, v, hv⟩
      cases u with
      | nil => exact Or.inl ⟨v, by simpa using hv⟩
      | cons x xs =>
        simp only [List.cons_append, List.cons.injEq] at hv
        exact Or.inr ⟨xs, v, hv.2⟩

theorem ltrim_eq_nil_of_space (l : List Char) (h : ∀ c ∈ l, isJsSpace c = true) :
    ltrim l = [] := by
  unfold ltrim
  rw [List.dropWhile_eq_nil_iff.mpr h]
  simp

theorem toNat_ofNat_valid (n : Nat) (h : n.isValidChar) :
    (Char.ofNat n).toNat = n := by
  rw [Char.ofNat, dif_pos h]
  simp [Char.ofNatAux, Char.toNat, UInt32.toNat]

theorem toLower_ne_space (c : Char) (h : isAsciiAlphaNum c = true) :
    Char.toLower c ≠ ' ' := by
  unfold Char.toLower
  show (if c.toNat ≥ 65 ∧ c.toNat ≤ 90 then Char.ofNat (c.toNat + 32) else c) ≠ ' '
  split
  · intro hEq
    have hvalid : (c.toNat + 32).isValidChar := by left; omega
    have h2 : (Char.ofNat (c.toNat + 32)).toNat = c.toNat + 32 :=
      toNat_ofNat_valid _ hvalid
    rw [hEq] at h2
    have h3 : (' ' : Char).toNat = 32 := by decide
    omega
  · intro hEq
    subst hEq
    simp [isAsciiAlphaNum, Char.isAlpha, Char.isUpper, Char.isLower,
      Char.isDigit] at h

theorem normalize_no_space (q : String) :
    ∀ c ∈ (normalizeQuestion q).toList, c ≠ ' ' := by
  intro c hc
  simp only [normalizeQuestion, String.toList, String.mk, List.mem_map,
    List.mem_filter] at hc
  obtain ⟨a, ⟨-, ha⟩, rfl⟩ := hc
  exact toLower_ne_space a ha

theorem lsplit_eq_single (sep : Char) (l : List Char) (h : ∀ c ∈ l, c ≠ sep) :
    lsplit sep l = [l] := by
  induction l with
  | nil => rfl
  | cons c t ih =>
    have hc : c ≠ sep := h c (by simp)
    have ht := ih (fun x hx => h x (by simp [hx]))
    simp [lsplit, hc, ht]

/-! ### C4: the parser on empty and whitespace-only input -/

/-- Claim C4 (amended): `parseGeminiSummarySections` returns the empty
list whenever its input is empty or consists solely of whitespace; the
converse direction of the claim is refuted by `claim_C4_cex`. -/
theorem claim_C4 (s : String) (h : ∀ c ∈ s.toList, isJsSpace c = true) :
    parseGeminiSummarySections s = [] := by
  have ht : jsTrim s = "" := by
    show String.mk (ltrim s.toList) = ""
    rw [ltrim_eq_nil_of_space s.toList h]
  simp [parseGeminiSummarySections, ht]

/-- Witness for C4 at the whitespace input `" "`. -/
theorem claim_C4_check : parseGeminiSummarySections " " = [] :=
  claim_C4 " " (by decide)

/-- Counterexample to C4 as stated: `"hi"` contains non-whitespace
characters, yet the parser returns the empty list (no heading matches and
the line is not longer than 20 characters). -/
theorem claim_C4_cex :
    parseGeminiSummarySections "hi" = [] ∧
      ("hi".toList.all (fun c => isJsSpace c)) = false ∧ "hi" ≠ "" := by
  refine ⟨?_, by decide, by decide⟩
  decide

/-! ### C9: specialty extraction -/

/-- Claim C9: extraction over `"chest pain and palpitations"` starts with
(indeed equals) `cardiology`; the empty string maps to `["internal"]`; and
the result is never empty. -/
theorem claim_C9 :
    extractSpecialties "chest pain and palpitations" = ["cardiology"] ∧
      extractSpecialties "" = ["internal"] ∧
      ∀ s : String, extractSpecialties s ≠ [] := by
  refine ⟨by decide, by decide, ?_⟩
  intro s
  unfold extractSpecialties
  split
  · simp
  · next h => simpa [List.isEmpty_iff] using h

/-! ### C3: the end-to-end summary scenario -/

/-- Counterexample to C3 as stated: on the scenario's exact raw text the
extracted specialty list is not `["cardiology"]`. -/
theorem claim_C3_cex :
    outcomeSpecialties (summaryOutcome c3Raw) ≠ ["cardiology"] := by
  decide

/-- Claim C3 (amended): on the scenario's raw text the pipeline does emit
exactly 3 sections, but their types are the stray fragments picked up by
the colon-less `**heading**` pattern (the short `X`/`Y`/`Z` bodies fail
pattern 1's 10-character content filter), no section type matches
"specialty", and the extracted specialty list falls back to
`["internal"]`. -/
theorem claim_C3 :
    (outcomeSections (summaryOutcome c3Raw)).length = 3 ∧
      outcomeSections (summaryOutcome c3Raw) =
        [("X", "URGENCY LEVEL:"), ("Y", "RECOMMENDED SPECIALTY:"),
         ("cardiology", "FIRST AID RECOMMENDATIONS:** Z")] ∧
      outcomeSpecialties (summaryOutcome c3Raw) = ["internal"] := by
  refine ⟨?_, ?_, ?_⟩ <;> decide

/-! ### C8: question truncation -/

theorem findIdx?_bounds {α : Type} (p : α → Bool) :
    ∀ (l : List α) (i j : Nat), List.findIdx? p l i = some j →
      i ≤ j ∧ j < i + l.length := by
  intro l
  induction l with
  | nil => intro i j h; simp [List.findIdx?_nil] at h
  | cons a t ih =>
    intro i j h
    rw [List.findIdx?_cons] at h
    split at h
    · cases h; constructor <;> simp
    · have := ih (i + 1) j h
      constructor <;> [omega; (simp; omega)]

theorem jsLastIndexOf_eq_lastSpaceIdx (l : List Char) :
    jsLastIndexOf ' ' l =
      match lastSpaceIdx l with
      | some i => (i : Int)
      | none => -1 := by
  induction l with
  | nil => rfl
  | cons a t ih =>
    have hstep : jsLastIndexOf ' ' (a :: t) =
        (if jsLastIndexOf ' ' t ≥ 0 then jsLastIndexOf ' ' t + 1
         else if a = ' ' then 0 else -1) := rfl
    rw [hstep, ih]
    unfold lastSpaceIdx
    rw [show (a :: t).reverse = t.reverse ++ [a] from by simp, List.findIdx?_append]
    cases hf : List.findIdx? (fun c => decide (c = ' ')) t.reverse with
    | some j =>
      have hb := findIdx?_bounds _ _ _ _ hf
      simp only [List.length_reverse, Nat.zero_add] at hb
      simp only [hf, Option.or, Option.map, List.length_cons]
      rw [if_pos (Int.natCast_nonneg _)]
      have harith : t.length + 1 - 1 - j = (t.length - 1 - j) + 1 := by omega
      rw [harith]
      push_cast
      ring
    | none =>
      simp only [hf, Option.or, Option.map, List.length_cons]
      rw [List.findIdx?_cons]
      by_cases ha : a = ' '
      · simp only [ha, decide_eq_true_eq, if_pos rfl, List.length_reverse]
        rw [if_neg (by omega)]
        simp
      · have hd : (decide (a = ' ')) = false := by simp [ha]
        simp only [hd, Bool.false_eq_true, if_false, List.findIdx?_nil]
        rw [if_neg (by omega)]
        simp [ha]

/-- Claim C8 (amended): questions of at most 110 characters are presented
unchanged; longer questions are cut at the nearest space preceding
position 110 *provided that space sits after index 80*, else hard-cut at
110, with an ellipsis appended.  The claim as stated (cut at the nearest
space whenever one exists) is refuted by `claim_C8_cex`. -/
theorem claim_C8 (q : String) : truncateQuestion q = truncateSpecAmended q := by
  unfold truncateQuestion truncateSpecAmended
  by_cases hlen : q.length ≤ 110
  · rw [if_neg (by omega), if_pos hlen]
  · rw [if_pos (by omega), if_neg hlen]
    rw [jsLastIndexOf_eq_lastSpaceIdx]
    cases hs : lastSpaceIdx (q.toList.take 110) with
    | some i =>
      have hb : i < 110 := by
        unfold lastSpaceIdx at hs
        cases hf : List.findIdx? (fun c => decide (c = ' '))
            (q.toList.take 110).reverse with
        | none => rw [hf] at hs; simp at hs
        | some j =>
          rw [hf] at hs
          simp only [Option.map] at hs
          cases hs
          have hj := findIdx?_bounds _ _ _ _ hf
          simp only [List.length_reverse, Nat.zero_add] at hj
          have htl : (List.take 110 q.toList).length ≤ 110 := by
            rw [List.length_take]; omega
          omega
      simp only []
      by_cases h80 : i > 80
      · rw [if_pos (by exact_mod_cast h80), if_pos h80]
        have htn : ((i : Int)).toNat = i := Int.toNat_natCast i
        rw [htn, List.take_take]
        have : i ⊓ 110 = i := by omega
        rw [this]
      · rw [if_neg (by exact_mod_cast h80), if_neg h80]
        rw [List.take_take]
        have : (110 : Nat) ⊓ 110 = 110 := by omega
        rw [this]
    | none =>
      simp only []
      rw [if_neg (by decide)]
      rw [List.take_take]
      have : (110 : Nat) ⊓ 110 = 110 := by omega
      rw [this]

/-- Counterexample to C8 as stated: a 111-character question whose only
space sits at index 10 is hard-cut at 110 by the code, not cut at that
space. -/
theorem claim_C8_cex : truncateQuestion longQ ≠ truncateSpec longQ := by
  decide

/-! ### C2 and C10: the similarity predicate -/

theorem tokenSet_normalize (q : String) :
    tokenSet (normalizeQuestion q) =
      if 2 < (normalizeQuestion q).toList.length
      then {(normalizeQuestion q).toList} else (∅ : Finset (List Char)) := by
  unfold tokenSet
  rw [lsplit_eq_single ' ' _ (normalize_no_space q)]
  rw [List.filter_cons]
  by_cases h : 2 < (normalizeQuestion q).toList.length
  · rw [if_pos h, if_pos (by simpa using h)]
    simp
  · rw [if_neg h, if_neg (by simpa using h)]
    simp

theorem normalize_toList_inj {q1 q2 : String}
    (h : (normalizeQuestion q1).toList = (normalizeQuestion q2).toList) :
    normalizeQuestion q1 = normalizeQuestion q2 :=
  String.ext h

theorem areQuestionsSimilar_iff (q1 q2 : String) :
    areQuestionsSimilar q1 q2 = true ↔ similarCore q1 q2 := by
  unfold areQuestionsSimilar similarCore
  split_ifs with h1 h2
  · simpa using Or.inl h1
  · simp only [true_iff]
    simp only [Bool.and_eq_true, Bool.or_eq_true, decide_eq_true_eq] at h2
    exact Or.inr ⟨h2.1.1, h2.1.2, h2.2⟩
  · simp only [decide_eq_true_eq]
    constructor
    · intro hgt
      exfalso
      rw [tokenSet_normalize q1, tokenSet_normalize q2] at hgt
      have hne : (normalizeQuestion q1).toList ≠ (normalizeQuestion q2).toList :=
        fun hEq => h1 (normalize_toList_inj hEq)
      split_ifs at hgt with ha hb hb
      · rw [Finset.singleton_inter_of_not_mem (by simpa using hne)] at hgt
        simp at hgt
      · rw [Finset.inter_empty] at hgt
        simp at hgt
      · rw [Finset.empty_inter] at hgt
        simp at hgt
      · rw [Finset.empty_inter] at hgt
        simp at hgt
    · rintro (h | ⟨ha, hb, hc⟩)
      · exact absurd h h1
      · exact absurd (by simp only [Bool.and_eq_true, Bool.or_eq_true,
          decide_eq_true_eq]; exact ⟨⟨ha, hb⟩, hc⟩) h2

theorem similarCore_symm (q1 q2 : String) :
    similarCore q1 q2 ↔ similarCore q2 q1 := by
  unfold similarCore
  constructor
  · rintro (h | ⟨a, b, c⟩)
    · exact Or.inl h.symm
    · exact Or.inr ⟨b, a, c.symm⟩
  · rintro (h | ⟨a, b, c⟩)
    · exact Or.inl h.symm
    · exact Or.inr ⟨b, a, c.symm⟩

/-- Claim C2 (amended): because `normalizeQuestion` strips spaces before
the token split, the token-overlap clause of `areQuestionsSimilar` is
vacuous; the function returns true exactly when the normalised forms are
equal, or both exceed 10 characters and one contains the other.  The
claim's word-token reading is refuted by `claim_C2_cex`. -/
theorem claim_C2 (q1 q2 : String) :
    areQuestionsSimilar q1 q2 = true ↔ similarCore q1 q2 :=
  areQuestionsSimilar_iff q1 q2

/-- Counterexample to C2 as stated: two questions sharing all their word
tokens (ratio 1 > 0.8) that the code does not consider similar. -/
theorem claim_C2_cex :
    areSimilarSpec "pain level what" "what pain level" = true ∧
      areQuestionsSimilar "pain level what" "what pain level" = false := by
  constructor <;> decide

/-- Claim C10: the similarity check is symmetric. -/
theorem claim_C10 (q1 q2 : String) :
    areQuestionsSimilar q1 q2 = areQuestionsSimilar q2 q1 := by
  cases hb1 : areQuestionsSimilar q1 q2 <;> cases hb2 : areQuestionsSimilar q2 q1
  · rfl
  · exact absurd ((areQuestionsSimilar_iff q1 q2).mpr
      ((similarCore_symm q2 q1).mp ((areQuestionsSimilar_iff q2 q1).mp hb2)))
      (by simp [hb1])
  · exact absurd ((areQuestionsSimilar_iff q2 q1).mpr
      ((similarCore_symm q1 q2).mp ((areQuestionsSimilar_iff q1 q2).mp hb1)))
      (by simp [hb2])
  · rfl

/-! ### C5: the ENOUGH_INFO sentinel -/

/-- Claim C5 (amended): whenever the trimmed response contains the
sentinel `ENOUGH_INFO` in any letter case, the dynamic-question generator
returns `none`; in the end-to-end fixed flow with the sentinel on the
first dynamic call the controller transitions straight to Summarizing
with exactly the answers collected so far — which are three, not four,
because the controller presents only three of the four fixed questions
(see `claim_C5_cex`). -/
theorem claim_C5 :
    (∀ (complaint text : String) (cnt : Nat),
      (∃ u w v, (jsTrim text).toList = u ++ w ++ v ∧
        w.map Char.toUpper = "ENOUGH_INFO".toList) →
      callGeminiDyn complaint cnt (.ok text) = none) ∧
    (run oracleEnough fixedFlowEvents).summarizing = true ∧
    (run oracleEnough fixedFlowEvents).userAnswers =
      [("How long have you had these symptoms?", "less_than_24h"),
       ("What event or situation might have caused these symptoms?",
        "recent_illness"),
       ("Do you have any previous medical history?", "hypertension")] ∧
    (run oracleEnough fixedFlowEvents).presented = 3 := by
  refine ⟨?_, by decide, by decide, by decide⟩
  rintro complaint text cnt ⟨u, w, v, hsplit, hupper⟩
  have hinc : jsIncludes (jsToUpper (jsTrim text)) "ENOUGH_INFO" = true := by
    unfold jsIncludes jsToUpper
    rw [lcontains_iff]
    refine ⟨u.map Char.toUpper, v.map Char.toUpper, ?_⟩
    show (jsTrim text).toList.map Char.toUpper = _
    rw [hsplit]
    simp [hupper]
  unfold callGeminiDyn
  simp [hinc]

/-- Witness for C5: a lower-case sentinel response parses to `none`. -/
theorem claim_C5_check : callGeminiDyn "" 0 (.ok "enough_info") = none :=
  claim_C5.1 "" "enough_info" 0
    ⟨[], "enough_info".toList, [], by decide, by decide⟩

/-- Counterexample to C5 as stated: after the user answers every fixed
question the controller presented, the sentinel on the first dynamic call
summarises with three answers, not four — the severity question is never
presented (`handleSendMessage` advances the fixed index past it before
`handleOptionSelect` adds one again). -/
theorem claim_C5_cex :
    (run oracleEnough fixedFlowEvents).summarizing = true ∧
      (run oracleEnough fixedFlowEvents).userAnswers.length = 3 ∧
      (run oracleEnough fixedFlowEvents).presented = 3 ∧
      ∀ m ∈ (run oracleEnough fixedFlowEvents).messages,
        m.question ≠ some "How severe are your symptoms?" := by
  refine ⟨by decide, by decide, by decide, by decide⟩

/-! ### C6: duplicate-question retries -/

theorem getNext_ge_max (oracle : Nat → AIResult) (snap : List Message)
    (attempts idx : Nat) (h : totalQuestionsAskedM snap ≥ MAX_TOTAL_QUESTIONS) :
    getNextAIQuestionAux oracle snap attempts idx = (none, idx, true) := by
  cases attempts with
  | zero => rfl
  | succ a =>
    simp only [getNextAIQuestionAux]
    rw [if_pos h]

theorem getNext_some_count (oracle : Nat → AIResult) (snap : List Message)
    (attempts idx : Nat) (dq : DynamicQuestion)
    (h : (getNextAIQuestionAux oracle snap attempts idx).1 = some dq) :
    totalQuestionsAskedM snap < MAX_TOTAL_QUESTIONS := by
  by_contra hge
  rw [getNext_ge_max oracle snap attempts idx (by omega)] at h
  simp at h

theorem getNext_step_dup (oracle : Nat → AIResult) (snap : List Message)
    (a idx : Nat) (hc : totalQuestionsAskedM snap < MAX_TOTAL_QUESTIONS)
    (ha : a ≠ 0) (hd : dupGenAt oracle snap idx) :
    getNextAIQuestionAux oracle snap (a + 1) idx =
      getNextAIQuestionAux oracle snap a (idx + 1) := by
  obtain ⟨dq, hcall, hsim⟩ := hd
  simp only [getNextAIQuestionAux]
  rw [if_neg (by omega), hcall]
  simp only [hsim, if_neg ha]
  simp

theorem getNext_last_dup (oracle : Nat → AIResult) (snap : List Message)
    (idx : Nat) (hc : totalQuestionsAskedM snap < MAX_TOTAL_QUESTIONS)
    (hd : dupGenAt oracle snap idx) :
    getNextAIQuestionAux oracle snap 1 idx = (none, idx + 1, true) := by
  obtain ⟨dq, hcall, hsim⟩ := hd
  simp only [getNextAIQuestionAux]
  rw [if_neg (by omega), hcall]
  simp only [hsim]
  simp

/-- Claim C6 (amended): `getNextAIQuestion` retries duplicate generations
up to 4 additional times — five generation calls in all — before giving up
and transitioning to Summarizing.  The dynamic-question requests issued
directly by `handleOptionSelect` do *not* retry (see `claim_C6_cex`), so
the five-attempt behaviour does not hold on every path. -/
theorem claim_C6 (oracle : Nat → AIResult) (snap : List Message) (idx : Nat)
    (hcount : totalQuestionsAskedM snap < MAX_TOTAL_QUESTIONS)
    (hdup : ∀ j, j < 5 → dupGenAt oracle snap (idx + j)) :
    getNextAIQuestionAux oracle snap 5 idx = (none, idx + 5, true) := by
  have d0 : dupGenAt oracle snap idx := by simpa using hdup 0 (by omega)
  have d1 : dupGenAt oracle snap (idx + 1) := hdup 1 (by omega)
  have d2 : dupGenAt oracle snap (idx + 2) := hdup 2 (by omega)
  have d3 : dupGenAt oracle snap (idx + 3) := hdup 3 (by omega)
  have d4 : dupGenAt oracle snap (idx + 4) := hdup 4 (by omega)
  show getNextAIQuestionAux oracle snap (4 + 1) idx = (none, idx + 5, true)
  rw [getNext_step_dup oracle snap 4 idx hcount (by omega) d0]
  show getNextAIQuestionAux oracle snap (3 + 1) (idx + 1) = (none, idx + 5, true)
  rw [getNext_step_dup oracle snap 3 (idx + 1) hcount (by omega) d1]
  show getNextAIQuestionAux oracle snap (2 + 1) (idx + 2) = (none, idx + 5, true)
  rw [getNext_step_dup oracle snap 2 (idx + 2) hcount (by omega) d2]
  show getNextAIQuestionAux oracle snap (1 + 1) (idx + 3) = (none, idx + 5, true)
  rw [getNext_step_dup oracle snap 1 (idx + 3) hcount (by omega) d3]
  show getNextAIQuestionAux oracle snap 1 (idx + 4) = (none, idx + 5, true)
  rw [getNext_last_dup oracle snap (idx + 4) hcount d4]

/-- Witness for C6: with every response a restatement of the already-asked
first question, the generator consumes exactly five oracle calls before
giving up. -/
theorem claim_C6_check :
    getNextAIQuestionAux oracleDup snapOneAsked 5 0 = (none, 5, true) :=
  claim_C6 oracleDup snapOneAsked 0 (by decide)
    (fun j _ =>
      ⟨{ question := "How long have you had these symptoms?",
         options := ["A", "B"] }, by rfl, by decide⟩)

/-- Counterexample to C6 as stated: on the `handleOptionSelect` path that
requests the first dynamic question, a single duplicate response makes the
controller give up immediately — one generation call, no retries — and
transition to Summarizing. -/
theorem claim_C6_cex :
    (run oracleDup fixedFlowEvents).summarizing = true ∧
      (run oracleDup fixedFlowEvents).genIdx = 1 ∧
      (run oracleDup fixedFlowEvents).presented = 3 := by
  refine ⟨by decide, by decide, by decide⟩

/-! ### C1: the 10-question cap -/

theorem countM_append (xs ys : List Message) :
    totalQuestionsAskedM (xs ++ ys) =
      totalQuestionsAskedM xs + totalQuestionsAskedM ys := by
  simp [totalQuestionsAskedM]

theorem countM_userMsg (t : String) : totalQuestionsAskedM [mkUserMsg t] = 0 :=
  rfl

theorem countM_qMsg (q : String) (o : List (String × String)) :
    totalQuestionsAskedM [mkQuestionMsg q o] = 1 :=
  rfl

theorem isQMsg_setSel (m : Message) (v : Option String) :
    isQMsg { m with selectedOption := v } = isQMsg m := by
  cases m
  rfl

theorem getLast?_decomp {α : Type} :
    ∀ (l : List α) (x : α), l.getLast? = some x → l = l.dropLast ++ [x] := by
  intro l
  induction l with
  | nil => intro x h; cases h
  | cons a t ih =>
    intro x h
    cases t with
    | nil =>
      simp only [List.getLast?_singleton, Option.some.injEq] at h
      subst h
      rfl
    | cons b t2 =>
      have h2 : (b :: t2).getLast? = some x := by
        rwa [List.getLast?_cons_cons] at h
      have := ih x h2
      calc a :: b :: t2 = a :: ((b :: t2).dropLast ++ [x]) := by rw [← this]
        _ = (a :: b :: t2).dropLast ++ [x] := by simp [List.dropLast_cons₂]

theorem countM_single (m : Message) :
    totalQuestionsAskedM [m] = if isQMsg m then 1 else 0 := by
  by_cases h : isQMsg m
  · simp [totalQuestionsAskedM, List.filter_cons, h]
  · simp [totalQuestionsAskedM, List.filter_cons, h]

theorem countM_pickBase (msgs : List Message) (cur : Message)
    (value label : String) (h : msgs.getLast? = some cur) :
    totalQuestionsAskedM (pickBaseMsgs msgs cur value label) =
      totalQuestionsAskedM msgs := by
  unfold pickBaseMsgs
  conv_rhs => rw [getLast?_decomp msgs cur h]
  rw [show ({ cur with selectedOption := some value } :: [mkUserMsg label]) =
    [{ cur with selectedOption := some value }] ++ [mkUserMsg label] from rfl]
  rw [← List.append_assoc, countM_append, countM_append, countM_append,
    countM_userMsg, countM_single, countM_single, isQMsg_setSel]
  omega

theorem countM_customBase (msgs : List Message) (a : String) :
    totalQuestionsAskedM msgs ≤ totalQuestionsAskedM (customBaseMsgs msgs a) ∧
      totalQuestionsAskedM (customBaseMsgs msgs a) ≤
        totalQuestionsAskedM msgs + 1 := by
  unfold customBaseMsgs
  split
  · split
    · rw [countM_append, countM_single, isQMsg_setSel]
      split <;> omega
    · rw [countM_append, countM_userMsg]
      omega
  · rw [countM_append, countM_userMsg]
    omega

theorem findNextStepGo_ge (ids : List String) :
    ∀ (gas i : Nat), i ≤ findNextStepGo ids gas i := by
  intro gas
  induction gas with
  | zero => intro i; simp [findNextStepGo]
  | succ g ih =>
    intro i
    rw [findNextStepGo]
    split
    · split
      · exact le_trans (by omega) (ih (i + 1))
      · exact le_refl i
    · exact le_refl i

theorem findNextStep_ge (ids : List String) (i : Nat) : i ≤ findNextStep ids i :=
  findNextStepGo_ge ids conversationFlow.length i

theorem inv_send (oracle : Nat → AIResult) (s : ChatState) (t : String)
    (h : C1Inv s) : C1Inv (handleSendMessage oracle s t) := by
  obtain ⟨h0, h1, h2⟩ := h
  have hflow : conversationFlow.length = 4 := rfl
  unfold handleSendMessage
  split
  · exact ⟨h0, h1, h2⟩
  · split
    · next hk =>
      have hc := h2 hk
      refine ⟨?_, ?_, ?_⟩ <;>
        simp only [C1Inv, countM_append, countM_userMsg, countM_qMsg]
      · omega
      · omega
      · intro hlt
        omega
    · next hk =>
      split
      · next dq idx2 summ heq =>
        have hlt : totalQuestionsAskedM s.messages < MAX_TOTAL_QUESTIONS :=
          getNext_some_count oracle s.messages 5 s.genIdx dq
            (by rw [heq])
        have hmax : MAX_TOTAL_QUESTIONS = 10 := rfl
        refine ⟨?_, ?_, ?_⟩ <;>
          simp only [countM_append, countM_userMsg, countM_qMsg]
        · omega
        · omega
        · intro hlt2
          exact absurd hlt2 hk
      · refine ⟨?_, ?_, ?_⟩ <;>
          simp only [countM_append, countM_userMsg]
        · omega
        · omega
        · next hk2 _ =>
          intro hlt2
          exact absurd hlt2 hk

theorem inv_pick (oracle : Nat → AIResult) (s : ChatState) (label value : String)
    (h : C1Inv s) : C1Inv (handleOptionSelect oracle s label value) := by
  obtain ⟨h0, h1, h2⟩ := h
  have hflow : conversationFlow.length = 4 := rfl
  have hmax : MAX_TOTAL_QUESTIONS = 10 := rfl
  unfold handleOptionSelect
  split
  · exact ⟨h0, h1, h2⟩
  · split
    · exact ⟨h0, h1, h2⟩
    · next cur hlast =>
      have hbase := countM_pickBase s.messages cur value label hlast
      split
      · next hk =>
        have hc := h2 hk
        split
        · next hn =>
          have hge := findNextStep_ge s.askedQuestionIds (s.conversationStep + 1)
          refine ⟨?_, ?_, ?_⟩ <;>
            simp only [countM_append, countM_qMsg, hbase]
          · omega
          · omega
          · intro hlt
            omega
        · next hn =>
          split
          · split
            · refine ⟨?_, ?_, ?_⟩ <;>
                simp only [countM_append, countM_qMsg, hbase]
              · omega
              · omega
              · intro hlt
                omega
            · refine ⟨?_, ?_, ?_⟩ <;> simp only [hbase]
              · omega
              · omega
              · intro hlt
                omega
          · refine ⟨?_, ?_, ?_⟩ <;> simp only [hbase]
            · omega
            · omega
            · intro hlt
              omega
      · next hk =>
        split
        · split
          · next hcnt =>
            split
            · refine ⟨?_, ?_, ?_⟩ <;>
                simp only [countM_append, countM_qMsg, hbase]
              · omega
              · omega
              · intro hlt
                exact absurd hlt hk
            · refine ⟨?_, ?_, ?_⟩ <;> simp only [hbase]
              · omega
              · omega
              · intro hlt
                exact absurd hlt hk
          · refine ⟨?_, ?_, ?_⟩ <;> simp only [hbase]
            · omega
            · omega
            · intro hlt
              exact absurd hlt hk
        · refine ⟨?_, ?_, ?_⟩ <;> simp only [hbase]
          · omega
          · omega
          · intro hlt
            exact absurd hlt hk

theorem inv_custom (oracle : Nat → AIResult) (s : ChatState) (a : String)
    (h : C1Inv s) : C1Inv (handleCustomStaticAnswer oracle s a) := by
  obtain ⟨h0, h1, h2⟩ := h
  have hflow : conversationFlow.length = 4 := rfl
  have hmax : MAX_TOTAL_QUESTIONS = 10 := rfl
  have hbase := countM_customBase s.messages a
  obtain ⟨hb1, hb2⟩ := hbase
  unfold handleCustomStaticAnswer
  split
  · next hk =>
    have hc : totalQuestionsAskedM s.messages ≤ 2 * s.conversationStep :=
      h2 (by omega)
    refine ⟨?_, ?_, ?_⟩ <;>
      simp only [countM_append, countM_qMsg]
    · omega
    · omega
    · intro hlt
      omega
  · next hk =>
    split
    · next dq idx2 summ heq =>
      have hlt : totalQuestionsAskedM s.messages < MAX_TOTAL_QUESTIONS :=
        getNext_some_count oracle s.messages 5 s.genIdx dq (by rw [heq])
      split
      · next hcnt =>
        split
        · refine ⟨?_, ?_, ?_⟩ <;>
            simp only [countM_append, countM_qMsg]
          · omega
          · omega
          · intro hlt2
            omega
        · refine ⟨?_, ?_, ?_⟩ <;> dsimp only
          · omega
          · omega
          · intro hlt2
            omega
      · refine ⟨?_, ?_, ?_⟩ <;> dsimp only
        · omega
        · omega
        · intro hlt2
          omega
    · refine ⟨?_, ?_, ?_⟩ <;> dsimp only
      · omega
      · omega
      · intro hlt2
        omega

theorem cap_send (oracle : Nat → AIResult) (s : ChatState) (t : String)
    (h : C1Inv s) (hp : s.presented = 10) :
    (handleSendMessage oracle s t).presented = 10 ∧
      (handleSendMessage oracle s t = s ∨
        (handleSendMessage oracle s t).summarizing = true) := by
  obtain ⟨h0, h1, h2⟩ := h
  have hflow : conversationFlow.length = 4 := rfl
  have hk : ¬ s.conversationStep < conversationFlow.length := by
    intro hlt
    have := h2 hlt
    omega
  have hge : totalQuestionsAskedM s.messages ≥ MAX_TOTAL_QUESTIONS := by
    show totalQuestionsAskedM s.messages ≥ 10
    omega
  unfold handleSendMessage
  rw [dif_neg hk, getNext_ge_max oracle s.messages 5 s.genIdx hge]
  split
  · exact ⟨hp, Or.inl rfl⟩
  · exact ⟨hp, Or.inr (by simp)⟩

theorem cap_pick (oracle : Nat → AIResult) (s : ChatState) (label value : String)
    (h : C1Inv s) (hp : s.presented = 10) :
    (handleOptionSelect oracle s label value).presented = 10 ∧
      (handleOptionSelect oracle s label value = s ∨
        (handleOptionSelect oracle s label value).summarizing = true) := by
  obtain ⟨h0, h1, h2⟩ := h
  have hflow : conversationFlow.length = 4 := rfl
  have hk : ¬ s.conversationStep < conversationFlow.length := by
    intro hlt
    have := h2 hlt
    omega
  have hcnt : ¬ totalQuestionsAskedM s.messages < MAX_TOTAL_QUESTIONS := by
    show ¬ totalQuestionsAskedM s.messages < 10
    omega
  unfold handleOptionSelect
  split
  · exact ⟨hp, Or.inl rfl⟩
  · split
    · exact ⟨hp, Or.inl rfl⟩
    · split <;> exact ⟨hp, Or.inr rfl⟩

theorem cap_custom (oracle : Nat → AIResult) (s : ChatState) (a : String)
    (h : C1Inv s) (hp : s.presented = 10) :
    (handleCustomStaticAnswer oracle s a).presented = 10 ∧
      (handleCustomStaticAnswer oracle s a = s ∨
        (handleCustomStaticAnswer oracle s a).summarizing = true) := by
  obtain ⟨h0, h1, h2⟩ := h
  have hflow : conversationFlow.length = 4 := rfl
  have hk : ¬ s.conversationStep + 1 < conversationFlow.length := by
    intro hlt
    have := h2 (by omega)
    omega
  have hge : totalQuestionsAskedM s.messages ≥ MAX_TOTAL_QUESTIONS := by
    show totalQuestionsAskedM s.messages ≥ 10
    omega
  unfold handleCustomStaticAnswer
  rw [dif_neg hk, getNext_ge_max oracle s.messages 5 s.genIdx hge]
  exact ⟨hp, Or.inr rfl⟩

theorem reachable_run (oracle : Nat → AIResult) (es : List Event) :
    Reachable oracle (run oracle es) := by
  have hgen : ∀ (l : List Event) (s : ChatState), Reachable oracle s →
      Reachable oracle (l.foldl (step oracle) s) := by
    intro l
    induction l with
    | nil => intro s hs; exact hs
    | cons e t ih => intro s hs; exact ih _ (Reachable.next s e hs)
  exact hgen es initState Reachable.init

theorem reachable_inv (oracle : Nat → AIResult) (s : ChatState)
    (h : Reachable oracle s) : C1Inv s := by
  induction h with
  | init => exact ⟨by decide, by decide, fun _ => by decide⟩
  | next s' e _ ih =>
    cases e with
    | send t => exact inv_send oracle s' t ih
    | pick label value => exact inv_pick oracle s' label value ih
    | custom a => exact inv_custom oracle s' a ih

/-- Claim C1: in every reachable state of the controller the number of
questions actually presented (fixed plus dynamic) never exceeds 10, and
once it has reached 10 any further event presents no question — every
state-changing event transitions to summary generation instead. -/
theorem claim_C1 (oracle : Nat → AIResult) (s : ChatState)
    (h : Reachable oracle s) :
    s.presented ≤ 10 ∧
      (s.presented = 10 → ∀ e, (step oracle s e).presented = 10 ∧
        (step oracle s e = s ∨ (step oracle s e).summarizing = true)) := by
  have hinv := reachable_inv oracle s h
  refine ⟨hinv.1, fun hp e => ?_⟩
  cases e with
  | send t => exact cap_send oracle s t hinv hp
  | pick label value => exact cap_pick oracle s label value hinv hp
  | custom a => exact cap_custom oracle s a hinv hp

/-- Witness for C1 at a concrete session that reaches all ten questions:
the cap holds, and the next event summarises without presenting. -/
theorem claim_C1_check :
    (run oracleFresh c1Events).presented ≤ 10 ∧
      (step oracleFresh (run oracleFresh c1Events) (.send "anything")).presented
          = 10 ∧
      (step oracleFresh (run oracleFresh c1Events) (.send "anything") =
          run oracleFresh c1Events ∨
        (step oracleFresh (run oracleFresh c1Events)
          (.send "anything")).summarizing = true) := by
  have h := claim_C1 oracleFresh (run oracleFresh c1Events)
    (reachable_run oracleFresh c1Events)
  have h2 := h.2 (by decide) (.send "anything")
  exact ⟨h.1, h2.1, h2.2⟩

/-! ### Replay correspondence (C7) -/

theorem qTexts_append (a b : List Message) :
    qTexts (a ++ b) = qTexts a ++ qTexts b := by
  simp [qTexts, List.filter_append]

theorem qTexts_user (t : String) : qTexts [mkUserMsg t] = [] := by
  simp [qTexts, mkUserMsg, isQMsg]

theorem qTexts_qmsg (q : String) (opts : List (String × String)) :
    qTexts [mkQuestionMsg q opts] = [q] := by
  simp [qTexts, mkQuestionMsg, isQMsg]

theorem qTexts_setSel (cur : Message) (v : Option String) :
    qTexts [{ cur with selectedOption := v }] = qTexts [cur] := by
  by_cases h : isQMsg cur = true <;>
    simp [qTexts, List.filter_cons, isQMsg_setSel, h]

theorem foldl_rss_eq_rssQ (msgs : List Message) :
    ∀ acc, msgs.foldl rssStep acc = (qTexts msgs).foldl rssStepQ acc := by
  induction msgs with
  | nil => intro acc; rfl
  | cons m t ih =>
    intro acc
    by_cases hm : isQMsg m = true
    · have hq : qTexts (m :: t) = (m.question.getD "") :: qTexts t := by
        simp [qTexts, List.filter_cons, hm]
      have hs : rssStep acc m = rssStepQ acc (m.question.getD "") := by
        simp [rssStep, rssStepQ, hm]
      rw [List.foldl_cons, hq, List.foldl_cons, hs, ih]
    · have hq : qTexts (m :: t) = qTexts t := by
        simp [qTexts, List.filter_cons, hm]
      have hs : rssStep acc m = acc := by
        simp [rssStep, hm]
      rw [List.foldl_cons, hq, hs, ih]

theorem replayStaticStep_eq (msgs : List Message) :
    replayStaticStep msgs = rssCount (qTexts msgs) := by
  unfold replayStaticStep rssCount
  rw [foldl_rss_eq_rssQ]

theorem rssCount_sat (l : List String) (q : String)
    (h : rssCount l = conversationFlow.length) :
    rssCount (l ++ [q]) = conversationFlow.length := by
  unfold rssCount at h ⊢
  rw [List.foldl_append, List.foldl_cons, List.foldl_nil]
  set acc := List.foldl rssStepQ (0, []) l with hacc
  unfold rssStepQ
  rw [if_neg (by omega)]
  exact h

theorem similar_of_norm_eq (a b : String)
    (h : normalizeQuestion a = normalizeQuestion b) :
    areQuestionsSimilar a b = true := by
  unfold areQuestionsSimilar
  rw [if_pos h]

theorem raStep_skip (acc : List (String × String)) (m : Message)
    (h : m.selectedOption = none) : raStep acc m = acc := by
  simp [raStep, h]

theorem raStep_user (acc : List (String × String)) (t : String) :
    raStep acc (mkUserMsg t) = acc := by
  simp [raStep, mkUserMsg]

theorem raStep_ans (acc : List (String × String)) (cur : Message) (q v : String)
    (hint : cur.isInteractive = true) (hq : cur.question = some q) :
    raStep acc { cur with selectedOption := some v } = objSet acc q v := by
  simp [raStep, hint, hq]

theorem replayAnswers_append (pre l : List Message) :
    replayAnswers (pre ++ l) = l.foldl raStep (replayAnswers pre) := by
  unfold replayAnswers
  rw [List.foldl_append]

theorem isSimilarQuestionM_eq (msgs : List Message) (nq : String) :
    isSimilarQuestionM msgs nq = (qTexts msgs).any (fun q => areQuestionsSimilar q nq) :=
  rfl

theorem qTexts_single (m : Message) (q : String) (hint : m.isInteractive = true)
    (hq : m.question = some q) : qTexts [m] = [q] := by
  simp [qTexts, isQMsg, hint, hq]

theorem get_fst_fixedQ (k : Nat) (h : k < conversationFlow.length) :
    (conversationFlow.get ⟨k, h⟩).1 = fixedQ k := by
  unfold fixedQ
  rw [List.getD_eq_getElem _ _ h]
  rfl

theorem pickBaseMsgs_eq (pre : List Message) (cur : Message) (value label : String) :
    pickBaseMsgs (pre ++ [cur]) cur value label =
      pre ++ [{ cur with selectedOption := some value }, mkUserMsg label] := by
  unfold pickBaseMsgs
  rw [List.dropLast_concat]

theorem replayAnswers_concat_skip (pre : List Message) (cur : Message)
    (h : cur.selectedOption = none) :
    replayAnswers (pre ++ [cur]) = replayAnswers pre := by
  rw [replayAnswers_append, List.foldl_cons, List.foldl_nil, raStep_skip _ _ h]

theorem replayAnswers_pickPresent (pre : List Message) (cur : Message)
    (q value label : String) (m : Message)
    (hint : cur.isInteractive = true) (hq : cur.question = some q)
    (hm : m.selectedOption = none) :
    replayAnswers ((pre ++ [{ cur with selectedOption := some value },
        mkUserMsg label]) ++ [m]) = objSet (replayAnswers pre) q value := by
  rw [show (pre ++ [{ cur with selectedOption := some value }, mkUserMsg label]) ++ [m]
      = pre ++ [{ cur with selectedOption := some value }, mkUserMsg label, m] from by simp]
  rw [replayAnswers_append, List.foldl_cons, List.foldl_cons, List.foldl_cons,
    List.foldl_nil, raStep_ans _ cur q value hint hq, raStep_user, raStep_skip _ _ hm]

theorem replayAnswers_pickSum (pre : List Message) (cur : Message)
    (q value label : String)
    (hint : cur.isInteractive = true) (hq : cur.question = some q) :
    replayAnswers (pre ++ [{ cur with selectedOption := some value }, mkUserMsg label]) =
      objSet (replayAnswers pre) q value := by
  rw [replayAnswers_append, List.foldl_cons, List.foldl_cons, List.foldl_nil,
    raStep_ans _ cur q value hint hq, raStep_user]

theorem qTexts_pickPresent (pre : List Message) (cur : Message)
    (value label : String) (m : Message) :
    qTexts ((pre ++ [{ cur with selectedOption := some value },
        mkUserMsg label]) ++ [m]) = qTexts (pre ++ [cur]) ++ qTexts [m] := by
  rw [show (pre ++ [{ cur with selectedOption := some value }, mkUserMsg label])
      = (pre ++ [{ cur with selectedOption := some value }]) ++ [mkUserMsg label] from by simp]
  rw [qTexts_append, qTexts_append, qTexts_append, qTexts_user, qTexts_setSel,
    qTexts_append]
  simp

/-- Stage 1 of a complaint-then-selections session: answering the first
fixed question advances to stage 2 (`conversationFlow[2]`; the severity
question is skipped by the probe starting at `conversationStep + 1`). -/
theorem c7_stage1 (oracle : Nat → AIResult) (s : ChatState) (label value : String)
    (pre : List Message) (cur : Message) (q : String)
    (hshow : s.currentlyShowingInteractive = true) (hsum : s.summarizing = false)
    (hans : replayAnswers s.messages = s.userAnswers)
    (hmsgs : s.messages = pre ++ [cur]) (hint : cur.isInteractive = true)
    (hsel : cur.selectedOption = none) (hq : cur.question = some q)
    (hcs : s.conversationStep = 1) (hqe : q = fixedQ 0)
    (hids : s.askedQuestionIds = []) (hqt : qTexts s.messages = [fixedQ 0]) :
    C7Inv (handleOptionSelect oracle s label value) := by
  have hprev : replayAnswers pre = s.userAnswers := by
    rw [← hans, hmsgs, replayAnswers_concat_skip pre cur hsel]
  unfold handleOptionSelect
  rw [if_neg (by rw [hshow]; decide)]
  split
  · next heq =>
    rw [hmsgs, List.getLast?_concat] at heq
    exact Option.noConfusion heq
  · next cur2 heq =>
    rw [hmsgs, List.getLast?_concat] at heq
    injection heq with heq2
    subst heq2
    have hc2 : findNextStep s.askedQuestionIds (s.conversationStep + 1) <
        conversationFlow.length := by
      rw [hids, hcs]; decide
    rw [if_pos (show s.conversationStep < conversationFlow.length by rw [hcs]; decide),
      dif_pos hc2]
    refine Or.inr (Or.inr ?_)
    unfold C7Live
    refine ⟨rfl, hsum, ?_,
      pre ++ [{ cur with selectedOption := some value }, mkUserMsg label],
      mkQuestionMsg
        (conversationFlow.get ⟨findNextStep s.askedQuestionIds (s.conversationStep + 1), hc2⟩).1
        (conversationFlow.get ⟨findNextStep s.askedQuestionIds (s.conversationStep + 1), hc2⟩).2,
      ?_, rfl, rfl,
      (conversationFlow.get ⟨findNextStep s.askedQuestionIds (s.conversationStep + 1), hc2⟩).1,
      rfl, Or.inr (Or.inl ⟨?_, ?_, ?_, ?_⟩)⟩
    · show replayAnswers (pickBaseMsgs s.messages cur value label ++
          [mkQuestionMsg _ _]) = objSet s.userAnswers (cur.question.getD "") value
      rw [hmsgs, pickBaseMsgs_eq,
        replayAnswers_pickPresent pre cur q value label _ hint hq rfl, hprev, hq]
      rfl
    · show pickBaseMsgs s.messages cur value label ++ [mkQuestionMsg _ _] = _
      rw [hmsgs, pickBaseMsgs_eq]
    · show findNextStep s.askedQuestionIds (s.conversationStep + 1) = 2
      rw [hids, hcs]; decide
    · rw [get_fst_fixedQ, hids, hcs]; decide
    · show insertUniq s.askedQuestionIds (normalizeQuestion (cur.question.getD "")) = _
      rw [hids, hq, hqe]; decide
    · show qTexts (pickBaseMsgs s.messages cur value label ++ [mkQuestionMsg _ _]) = _
      rw [hmsgs, pickBaseMsgs_eq, qTexts_pickPresent, ← hmsgs, hqt, qTexts_qmsg,
        get_fst_fixedQ, hids, hcs]
      decide

/-- Stage 2: answering `conversationFlow[2]` advances to stage 3. -/
theorem c7_stage2 (oracle : Nat → AIResult) (s : ChatState) (label value : String)
    (pre : List Message) (cur : Message) (q : String)
    (hshow : s.currentlyShowingInteractive = true) (hsum : s.summarizing = false)
    (hans : replayAnswers s.messages = s.userAnswers)
    (hmsgs : s.messages = pre ++ [cur]) (hint : cur.isInteractive = true)
    (hsel : cur.selectedOption = none) (hq : cur.question = some q)
    (hcs : s.conversationStep = 2) (hqe : q = fixedQ 2)
    (hids : s.askedQuestionIds = [normalizeQuestion (fixedQ 0)])
    (hqt : qTexts s.messages = [fixedQ 0, fixedQ 2]) :
    C7Inv (handleOptionSelect oracle s label value) := by
  have hprev : replayAnswers pre = s.userAnswers := by
    rw [← hans, hmsgs, replayAnswers_concat_skip pre cur hsel]
  unfold handleOptionSelect
  rw [if_neg (by rw [hshow]; decide)]
  split
  · next heq =>
    rw [hmsgs, List.getLast?_concat] at heq
    exact Option.noConfusion heq
  · next cur2 heq =>
    rw [hmsgs, List.getLast?_concat] at heq
    injection heq with heq2
    subst heq2
    have hc2 : findNextStep s.askedQuestionIds (s.conversationStep + 1) <
        conversationFlow.length := by
      rw [hids, hcs]; decide
    rw [if_pos (show s.conversationStep < conversationFlow.length by rw [hcs]; decide),
      dif_pos hc2]
    refine Or.inr (Or.inr ?_)
    unfold C7Live
    refine ⟨rfl, hsum, ?_,
      pre ++ [{ cur with selectedOption := some value }, mkUserMsg label],
      mkQuestionMsg
        (conversationFlow.get ⟨findNextStep s.askedQuestionIds (s.conversationStep + 1), hc2⟩).1
        (conversationFlow.get ⟨findNextStep s.askedQuestionIds (s.conversationStep + 1), hc2⟩).2,
      ?_, rfl, rfl,
      (conversationFlow.get ⟨findNextStep s.askedQuestionIds (s.conversationStep + 1), hc2⟩).1,
      rfl, Or.inr (Or.inr (Or.inl ⟨?_, ?_, ?_, ?_⟩))⟩
    · show replayAnswers (pickBaseMsgs s.messages cur value label ++
          [mkQuestionMsg _ _]) = objSet s.userAnswers (cur.question.getD "") value
      rw [hmsgs, pickBaseMsgs_eq,
        replayAnswers_pickPresent pre cur q value label _ hint hq rfl, hprev, hq]
      rfl
    · show pickBaseMsgs s.messages cur value label ++ [mkQuestionMsg _ _] = _
      rw [hmsgs, pickBaseMsgs_eq]
    · show findNextStep s.askedQuestionIds (s.conversationStep + 1) = 3
      rw [hids, hcs]; decide
    · rw [get_fst_fixedQ, hids, hcs]; decide
    · show insertUniq s.askedQuestionIds (normalizeQuestion (cur.question.getD "")) = _
      rw [hids, hq, hqe]; decide
    · show qTexts (pickBaseMsgs s.messages cur value label ++ [mkQuestionMsg _ _]) = _
      rw [hmsgs, pickBaseMsgs_eq, qTexts_pickPresent, ← hmsgs, hqt, qTexts_qmsg,
        get_fst_fixedQ, hids, hcs]
      decide

theorem rssStepQ_fresh (k : Nat) (L : List String) (q : String)
    (hk : k < conversationFlow.length) (hq : normalizeQuestion q ∉ L) :
    rssStepQ (k, L) q = (k + 1, L ++ [normalizeQuestion q]) := by
  unfold rssStepQ
  rw [if_pos hk, if_neg hq]

/-- Stage 3: answering `conversationFlow[3]` hands over to the dynamic
generator — a fresh question moves to stage 4, anything else summarises. -/
theorem c7_stage3 (oracle : Nat → AIResult) (s : ChatState) (label value : String)
    (pre : List Message) (cur : Message) (q : String)
    (hshow : s.currentlyShowingInteractive = true) (hsum : s.summarizing = false)
    (hans : replayAnswers s.messages = s.userAnswers)
    (hmsgs : s.messages = pre ++ [cur]) (hint : cur.isInteractive = true)
    (hsel : cur.selectedOption = none) (hq : cur.question = some q)
    (hcs : s.conversationStep = 3) (_hqe : q = fixedQ 3)
    (hids : s.askedQuestionIds = [normalizeQuestion (fixedQ 0), normalizeQuestion (fixedQ 2)])
    (hqt : qTexts s.messages = [fixedQ 0, fixedQ 2, fixedQ 3]) :
    C7Inv (handleOptionSelect oracle s label value) := by
  have hprev : replayAnswers pre = s.userAnswers := by
    rw [← hans, hmsgs, replayAnswers_concat_skip pre cur hsel]
  unfold handleOptionSelect
  rw [if_neg (by rw [hshow]; decide)]
  split
  · next heq =>
    rw [hmsgs, List.getLast?_concat] at heq
    exact Option.noConfusion heq
  · next cur2 heq =>
    rw [hmsgs, List.getLast?_concat] at heq
    injection heq with heq2
    subst heq2
    have hc3 : ¬ findNextStep s.askedQuestionIds (s.conversationStep + 1) <
        conversationFlow.length := by
      rw [hids, hcs]; decide
    rw [if_pos (show s.conversationStep < conversationFlow.length by rw [hcs]; decide),
      dif_neg hc3]
    split
    · next dq heq3 =>
      split
      · next hfresh =>
        have hsim : isSimilarQuestionM s.messages dq.question = false := by
          cases hb : isSimilarQuestionM s.messages dq.question
          · rfl
          · exact absurd hb hfresh.2.2
        rw [isSimilarQuestionM_eq, hqt] at hsim
        simp only [List.any_cons, List.any_nil, Bool.or_eq_false_iff] at hsim
        obtain ⟨h0, h2, h3, -⟩ := hsim
        have hnm : normalizeQuestion dq.question ∉
            [normalizeQuestion (fixedQ 0), normalizeQuestion (fixedQ 2),
              normalizeQuestion (fixedQ 3)] := by
          intro hmem
          simp only [List.mem_cons, List.not_mem_nil, or_false] at hmem
          rcases hmem with hm | hm | hm
          · exact absurd (similar_of_norm_eq _ _ hm.symm) (by simp [h0])
          · exact absurd (similar_of_norm_eq _ _ hm.symm) (by simp [h2])
          · exact absurd (similar_of_norm_eq _ _ hm.symm) (by simp [h3])
        refine Or.inr (Or.inr ?_)
        unfold C7Live
        refine ⟨rfl, hsum, ?_,
          pre ++ [{ cur with selectedOption := some value }, mkUserMsg label],
          mkQuestionMsg dq.question (toInteractiveOptions dq.options),
          ?_, rfl, rfl, dq.question, rfl, Or.inr (Or.inr (Or.inr ⟨rfl, ?_⟩))⟩
        · show replayAnswers (pickBaseMsgs s.messages cur value label ++
              [mkQuestionMsg _ _]) = objSet s.userAnswers (cur.question.getD "") value
          rw [hmsgs, pickBaseMsgs_eq,
            replayAnswers_pickPresent pre cur q value label _ hint hq rfl, hprev, hq]
          rfl
        · show pickBaseMsgs s.messages cur value label ++ [mkQuestionMsg _ _] = _
          rw [hmsgs, pickBaseMsgs_eq]
        · show rssCount (qTexts (pickBaseMsgs s.messages cur value label ++
              [mkQuestionMsg _ _])) = conversationFlow.length
          rw [hmsgs, pickBaseMsgs_eq, qTexts_pickPresent, ← hmsgs, hqt, qTexts_qmsg]
          unfold rssCount
          rw [List.foldl_append,
            show List.foldl rssStepQ (0, []) [fixedQ 0, fixedQ 2, fixedQ 3] =
              (3, [normalizeQuestion (fixedQ 0), normalizeQuestion (fixedQ 2),
                normalizeQuestion (fixedQ 3)]) from by decide,
            List.foldl_cons, List.foldl_nil, rssStepQ_fresh 3 _ _ (by decide) hnm]
          rfl
      · exact Or.inr (Or.inl ⟨rfl, rfl⟩)
    · exact Or.inr (Or.inl ⟨rfl, rfl⟩)

/-- Stage 4 (dynamic phase): a fresh generated question under the cap is
presented and the state stays in stage 4; otherwise the state summarises. -/
theorem c7_stage4 (oracle : Nat → AIResult) (s : ChatState) (label value : String)
    (pre : List Message) (cur : Message) (q : String)
    (hshow : s.currentlyShowingInteractive = true) (hsum : s.summarizing = false)
    (hans : replayAnswers s.messages = s.userAnswers)
    (hmsgs : s.messages = pre ++ [cur]) (hint : cur.isInteractive = true)
    (hsel : cur.selectedOption = none) (hq : cur.question = some q)
    (hcs : s.conversationStep = conversationFlow.length)
    (hsat : rssCount (qTexts s.messages) = conversationFlow.length) :
    C7Inv (handleOptionSelect oracle s label value) := by
  have hprev : replayAnswers pre = s.userAnswers := by
    rw [← hans, hmsgs, replayAnswers_concat_skip pre cur hsel]
  unfold handleOptionSelect
  rw [if_neg (by rw [hshow]; decide)]
  split
  · next heq =>
    rw [hmsgs, List.getLast?_concat] at heq
    exact Option.noConfusion heq
  · next cur2 heq =>
    rw [hmsgs, List.getLast?_concat] at heq
    injection heq with heq2
    subst heq2
    rw [if_neg (show ¬ s.conversationStep < conversationFlow.length by
      rw [hcs]; decide)]
    split
    · next dq heq3 =>
      split
      · next hcnt =>
        split
        · next hfresh =>
          refine Or.inr (Or.inr ?_)
          unfold C7Live
          refine ⟨rfl, hsum, ?_,
            pre ++ [{ cur with selectedOption := some value }, mkUserMsg label],
            mkQuestionMsg dq.question (toInteractiveOptions dq.options),
            ?_, rfl, rfl, dq.question, rfl,
            Or.inr (Or.inr (Or.inr ⟨hcs, ?_⟩))⟩
          · show replayAnswers (pickBaseMsgs s.messages cur value label ++
                [mkQuestionMsg _ _]) = objSet s.userAnswers (cur.question.getD "") value
            rw [hmsgs, pickBaseMsgs_eq,
              replayAnswers_pickPresent pre cur q value label _ hint hq rfl, hprev, hq]
            rfl
          · show pickBaseMsgs s.messages cur value label ++ [mkQuestionMsg _ _] = _
            rw [hmsgs, pickBaseMsgs_eq]
          · show rssCount (qTexts (pickBaseMsgs s.messages cur value label ++
                [mkQuestionMsg _ _])) = conversationFlow.length
            rw [hmsgs, pickBaseMsgs_eq, qTexts_pickPresent, ← hmsgs, qTexts_qmsg]
            exact rssCount_sat _ _ hsat
        · exact Or.inr (Or.inl ⟨rfl, rfl⟩)
      · exact Or.inr (Or.inl ⟨rfl, rfl⟩)
    · exact Or.inr (Or.inl ⟨rfl, rfl⟩)

theorem c7_pick_live (oracle : Nat → AIResult) (s : ChatState) (label value : String)
    (h : C7Live s) : C7Inv (handleOptionSelect oracle s label value) := by
  obtain ⟨hshow, hsum, hans, pre, cur, hmsgs, hint, hsel, q, hq, hstage⟩ := h
  rcases hstage with ⟨hcs, hqe, hids, hqt⟩ | ⟨hcs, hqe, hids, hqt⟩ |
    ⟨hcs, hqe, hids, hqt⟩ | ⟨hcs, hsat⟩
  · exact c7_stage1 oracle s label value pre cur q hshow hsum hans hmsgs hint hsel
      hq hcs hqe hids hqt
  · exact c7_stage2 oracle s label value pre cur q hshow hsum hans hmsgs hint hsel
      hq hcs hqe hids hqt
  · exact c7_stage3 oracle s label value pre cur q hshow hsum hans hmsgs hint hsel
      hq hcs hqe hids hqt
  · exact c7_stage4 oracle s label value pre cur q hshow hsum hans hmsgs hint hsel
      hq hcs hsat

theorem c7_pick_inv (oracle : Nat → AIResult) (s : ChatState) (label value : String)
    (h : C7Inv s) : C7Inv (handleOptionSelect oracle s label value) := by
  rcases h with hinit | ⟨hsh, hsm⟩ | hlive
  · subst hinit
    rw [show handleOptionSelect oracle initState label value = initState from by
      unfold handleOptionSelect; rw [if_pos (by decide)]]
    exact Or.inl rfl
  · rw [show handleOptionSelect oracle s label value = s from by
      unfold handleOptionSelect; rw [if_pos (by rw [hsh]; decide)]]
    exact Or.inr (Or.inl ⟨hsh, hsm⟩)
  · exact c7_pick_live oracle s label value hlive

theorem send_init_eq (oracle : Nat → AIResult) (t : String)
    (h : (jsTrim t).length ≠ 0) :
    handleSendMessage oracle initState t =
      { initState with
          messages := [mkUserMsg t,
            mkQuestionMsg (fixedQ 0) (conversationFlow.getD 0 ("", [])).2],
          currentlyShowingInteractive := true,
          conversationStep := 1,
          presented := 1 } := by
  unfold handleSendMessage
  rw [if_neg h,
    dif_pos (show initState.conversationStep < conversationFlow.length by decide)]
  rfl

theorem c7_send_init (oracle : Nat → AIResult) (t : String) :
    C7Inv (handleSendMessage oracle initState t) := by
  by_cases h : (jsTrim t).length = 0
  · rw [show handleSendMessage oracle initState t = initState from by
      unfold handleSendMessage; rw [if_pos h]]
    exact Or.inl rfl
  · rw [send_init_eq oracle t h]
    refine Or.inr (Or.inr ?_)
    unfold C7Live
    refine ⟨rfl, rfl, ?_, [mkUserMsg t],
      mkQuestionMsg (fixedQ 0) (conversationFlow.getD 0 ("", [])).2,
      rfl, rfl, rfl, fixedQ 0, rfl, Or.inl ⟨rfl, rfl, rfl, ?_⟩⟩
    · show replayAnswers ([mkUserMsg t] ++
        [mkQuestionMsg (fixedQ 0) (conversationFlow.getD 0 ("", [])).2]) = []
      rw [replayAnswers_append, List.foldl_cons, List.foldl_nil,
        raStep_skip _ _ rfl]
      rfl
    · show qTexts ([mkUserMsg t] ++
        [mkQuestionMsg (fixedQ 0) (conversationFlow.getD 0 ("", [])).2]) = [fixedQ 0]
      rw [qTexts_append, qTexts_user, qTexts_qmsg]
      rfl

theorem c7_foldl (oracle : Nat → AIResult) (picks : List Event) :
    ∀ s, (∀ e ∈ picks, isPickE e = true) → C7Inv s →
      C7Inv (picks.foldl (step oracle) s) := by
  induction picks with
  | nil => intro s _ h; exact h
  | cons e rest ih =>
    intro s hp h
    rw [List.foldl_cons]
    cases e with
    | send t => exact absurd (hp _ (List.mem_cons_self _ _)) (by simp [isPickE])
    | custom a => exact absurd (hp _ (List.mem_cons_self _ _)) (by simp [isPickE])
    | pick label value =>
      exact ih _ (fun e he => hp e (List.mem_cons_of_mem _ he))
        (c7_pick_inv oracle s label value h)

/-- Claim C7 (amended): for a complaint-then-option-selections session that
has not transitioned to summary generation, replaying the saved message log
through the `loadSession` reconstruction reproduces the live fixed-question
index (`conversationStep`) and the live answers map (`userAnswers`). The
asked-question sets (`allAskedQuestions`, `askedQuestionIds`) are not
reproduced on these flows — see the counterexample. -/
theorem claim_C7 (oracle : Nat → AIResult) (t : String) (picks : List Event)
    (hp : ∀ e ∈ picks, isPickE e = true)
    (hs : (run oracle (.send t :: picks)).summarizing = false) :
    replayStaticStep (run oracle (.send t :: picks)).messages =
      (run oracle (.send t :: picks)).conversationStep ∧
    replayAnswers (run oracle (.send t :: picks)).messages =
      (run oracle (.send t :: picks)).userAnswers := by
  have hinv : C7Inv (run oracle (.send t :: picks)) := by
    show C7Inv (List.foldl (step oracle) initState (.send t :: picks))
    rw [List.foldl_cons]
    exact c7_foldl oracle picks _ hp (c7_send_init oracle t)
  rcases hinv with hinit | ⟨_, hsm⟩ | ⟨_, _, hans, pre, cur, hmsgs, hint, hsel,
    q, hq, hstage⟩
  · rw [hinit]; exact ⟨rfl, rfl⟩
  · rw [hsm] at hs; exact Bool.noConfusion hs
  · refine ⟨?_, hans⟩
    rcases hstage with ⟨hcs, _, _, hqt⟩ | ⟨hcs, _, _, hqt⟩ | ⟨hcs, _, _, hqt⟩ |
      ⟨hcs, hsat⟩
    · rw [replayStaticStep_eq, hqt, hcs]; decide
    · rw [replayStaticStep_eq, hqt, hcs]; decide
    · rw [replayStaticStep_eq, hqt, hcs]; decide
    · rw [replayStaticStep_eq, hsat, hcs]

/-- Witness for the amended C7 on a concrete session: a complaint followed
by one option selection, live, with index and answers reproduced. -/
theorem claim_C7_check :
    (∀ e ∈ [Event.pick "Less than 24 hours" "less_than_24h"], isPickE e = true) ∧
    (run oracleFresh (.send "I have chest pain" ::
      [Event.pick "Less than 24 hours" "less_than_24h"])).summarizing = false ∧
    (replayStaticStep (run oracleFresh (.send "I have chest pain" ::
        [Event.pick "Less than 24 hours" "less_than_24h"])).messages =
      (run oracleFresh (.send "I have chest pain" ::
        [Event.pick "Less than 24 hours" "less_than_24h"])).conversationStep ∧
    replayAnswers (run oracleFresh (.send "I have chest pain" ::
        [Event.pick "Less than 24 hours" "less_than_24h"])).messages =
      (run oracleFresh (.send "I have chest pain" ::
        [Event.pick "Less than 24 hours" "less_than_24h"])).userAnswers) :=
  ⟨by decide, by decide,
   claim_C7 oracleFresh "I have chest pain"
     [Event.pick "Less than 24 hours" "less_than_24h"] (by decide) (by decide)⟩

/-- Counterexample for C7 as stated: already after the complaint is sent —
a reachable, live, pre-summary state — the log carries the first fixed
question, so the replayed `allAskedQuestions` and `askedQuestionIds` are
non-empty while the live sets are still empty (the handlers never populate
`allAskedQuestions`, and `askedQuestionIds` only fills on answering). -/
theorem claim_C7_cex :
    ∃ s, Reachable oracleFresh s ∧ s.summarizing = false ∧
      replayAllAsked s.messages ≠ s.allAskedQuestions ∧
      replayAskedIds s.messages ≠ s.askedQuestionIds :=
  ⟨step oracleFresh initState (.send "I have chest pain"),
   Reachable.next initState _ Reachable.init, by decide, by decide, by decide⟩

end Rakshith
